import Mathlib

set_option maxHeartbeats 1000000

/-
Verification of the BatchAPI benchmark chaincode
(`batchapi/chaincode/go/objects_chaincode_private.go`).

The chaincode is embedded shallowly:
* the package-level `math/rand` generator (an external library) is a
  parameter `RandGen` of the development: a seeding function and a step
  function for `Intn`;
* the shim stub (also external) is modelled by recording the issued calls
  as a trace (`StubOp`), by a ledger lookup function for `GetState`-style
  reads, and by a snapshot list for `GetStateByRange`; `PutStateBatch`,
  `GetStateBatch` and `DelStateBatch` are assumed to succeed and, for
  reads, to return one entry per requested key in request order;
* all strings in play are ASCII, so Go's byte-wise string operations
  coincide with the character-wise operations used here;
* wall-clock durations are not modelled: the reported milliseconds are a
  parameter `millis` of each run.
-/

deriving instance DecidableEq for Except

namespace BatchCC

/-- Model of the package-level `*rand.Rand` generator: `seedFn` models
`rand.Seed` as invoked by `RandReset` (lines 34-36), mapping a seed to a
generator state; `next n s` models `Intn n` at state `s`, returning the
drawn value and the successor state.  `math/rand` lives outside this
repository, so the generator is a parameter: every theorem quantifies
over it. -/
structure RandGen where
  seedFn : Int → Nat
  next : Nat → Nat → Nat × Nat

/-- The character set of lines 38-39. -/
def charset : String :=
  "abcdefghijklmnopqrstuvwxyzABCDEFGHIJKLMNOPQRSTUVWXYZ0123456789"

/-- The byte-filling loop of `RandStringWithCharset` (lines 41-47):
position `i` receives `charset[seededRand.Intn(len(charset))]`, drawn in
increasing position order. -/
def randChars (g : RandGen) (cs : List Char) : Nat → Nat → List Char × Nat
  | 0, s => ([], s)
  | n + 1, s =>
    let p := g.next cs.length s
    let rest := randChars g cs n p.2
    (cs.getD p.1 'a' :: rest.1, rest.2)

/-- `RandStringWithCharset` (lines 41-47). -/
def RandStringWithCharset (g : RandGen) (len : Nat) (cs : String) (s : Nat) :
    String × Nat :=
  let r := randChars g cs.data len s
  (String.mk r.1, r.2)

/-- `RandString` (lines 49-51). -/
def RandString (g : RandGen) (len : Nat) (s : Nat) : String × Nat :=
  RandStringWithCharset g len charset s

/-- Decimal digit value of an ASCII character, used to model
`strconv.Atoi`. -/
def digitVal (c : Char) : Option Nat :=
  if 48 ≤ c.toNat ∧ c.toNat ≤ 57 then some (c.toNat - 48) else none

/-- Accumulating decimal parse of a character list; fails on the first
non-digit. -/
def parseDigitsAux : List Char → Nat → Option Nat
  | [], acc => some acc
  | c :: cs, acc =>
    match digitVal c with
    | some d => parseDigitsAux cs (10 * acc + d)
    | none => none

/-- Decimal parse of a non-empty all-digit character list. -/
def parseDigits : List Char → Option Nat
  | [] => none
  | l => parseDigitsAux l 0

/-- Model of `strconv.Atoi`: an optional sign followed by at least one
decimal digit; anything else is an error (`none`).  The 64-bit range
check of the Go implementation is not modelled (no claim involves values
anywhere near the boundary). -/
def atoi (s : String) : Option Int :=
  match s.data with
  | [] => none
  | c :: rest =>
    if c = '+' then (parseDigits rest).map Int.ofNat
    else if c = '-' then (parseDigits rest).map (fun n => -(n : Int))
    else (parseDigits (c :: rest)).map Int.ofNat

/-- Fuelled most-significant-first decimal digit list of a natural
number (fuel keeps the recursion structural, so that the kernel can
evaluate it). -/
def decDigitsCore : Nat → Nat → List Nat
  | 0, _ => []
  | fuel + 1, n => if n < 10 then [n] else decDigitsCore fuel (n / 10) ++ [n % 10]

/-- Most-significant-first decimal digits of a natural number, as printed
by Go's `fmt` and `strconv` for non-negative integers. -/
def decDigits (n : Nat) : List Nat := decDigitsCore (n + 1) n

/-- ASCII digit character of a digit value. -/
def digitChar (d : Nat) : Char := Char.ofNat (48 + d)

/-- Decimal rendering of a natural number. -/
def natStr (n : Nat) : String := String.mk ((decDigits n).map digitChar)

/-- Decimal rendering of an integer, as printed by Go's `%d`. -/
def intStr (n : Int) : String :=
  if n < 0 then "-" ++ natStr n.natAbs else natStr n.toNat

/-- Rendering of a Go bool under `%t`. -/
def boolStr (b : Bool) : String := if b then "true" else "false"

/-- The message of the error returned by `strconv.Atoi` on invalid
syntax. -/
def atoiErrMsg (s : String) : String :=
  "strconv.Atoi: parsing \"" ++ s ++ "\": invalid syntax"

/-- `find` (lines 660-667), index-threading helper. -/
def findFrom (x : String) : List String → Nat → Int
  | [], _ => -1
  | n :: rest, i => if x = n then Int.ofNat i else findFrom x rest (i + 1)

/-- `find` (lines 660-667): index of the first occurrence of `x` in `a`,
or `-1`. -/
def find (a : List String) (x : String) : Int := findFrom x a 0

/-- `defaultSeed` (line 25). -/
def defaultSeed : Int := 1

/-- `defaultKeyLength` (line 26). -/
def defaultKeyLength : Int := 7

/-- The option values extracted by the identical option-parsing blocks of
`putManyObjectsBatch` (lines 150-189), `getManyObjectsBatch`
(lines 292-331) and `delManyObjectsBatch` (lines 420-459).  `errPending`
and `errMsg` record the value of the Go `err` variable at the end of the
block: `err` is last assigned by the `keylength` `Atoi` when that option
is attempted, otherwise by the `seed` `Atoi` when that one is attempted,
otherwise it is still `nil` from the successful parse of `args[0]`. -/
structure CommonOpts where
  verbose : Bool
  useBatchAPI : Bool
  seed : Int
  collection : String
  keyLength : Int
  errPending : Bool
  errMsg : String

/-- Whether the option block reads a value for option `name`: its literal
occurs (`find ≠ -1`) and is not the last argument (`indx+1 < len(args)`,
the guard at lines 167, 177, 182). -/
def optAttempt (args : List String) (name : String) : Bool :=
  decide (find args name ≠ -1 ∧ find args name + 1 < (args.length : Int))

/-- The argument following the first occurrence of option `name`
(`args[indx+1]`; only read under `optAttempt`). -/
def optValue (args : List String) (name : String) : String :=
  args.getD (find args name + 1).toNat ""

/-- The `strconv.Atoi` result for an integer option: `none` when the
option is absent, last, or its value fails to parse. -/
def optInt (args : List String) (name : String) : Option Int :=
  if optAttempt args name then atoi (optValue args name) else none

/-- The option-parsing block shared verbatim by the three `Many`
operations (lines 150-189, 292-331, 420-459). -/
def parseCommonOpts (args : List String) : CommonOpts :=
  let verboseFlag := decide (find args "verbose" ≠ -1)
  let useBatchAPI := decide (find args "nobatchapi" = -1)
  let seedParam := match optInt args "seed" with
    | some z => z
    | none => defaultSeed
  let collection :=
    if optAttempt args "collection" then optValue args "collection" else ""
  let keyLength := match optInt args "keylength" with
    | some z => z
    | none => defaultKeyLength
  let errPending := if optAttempt args "keylength" then (optInt args "keylength").isNone
    else optAttempt args "seed" && (optInt args "seed").isNone
  let errMsg :=
    if optAttempt args "keylength" && (optInt args "keylength").isNone then
      atoiErrMsg (optValue args "keylength")
    else if optAttempt args "seed" && (optInt args "seed").isNone then
      atoiErrMsg (optValue args "seed")
    else ""
  ⟨verboseFlag, useBatchAPI, seedParam, collection, keyLength, errPending, errMsg⟩

/-- `shim.StateKV` (collection, key, value); a `[]byte` value is carried
as its ASCII string. -/
structure StateKV where
  collection : String
  key : String
  value : String
  deriving DecidableEq

/-- `shim.StateKey` (collection, key). -/
structure StateKey where
  collection : String
  key : String
  deriving DecidableEq

/-- A call issued to the chaincode stub. -/
inductive StubOp where
  | putStateBatch (kvs : List StateKV)
  | putState (key value : String)
  | putPrivateData (collection key value : String)
  | delStateBatch (keys : List StateKey)
  | delState (key : String)
  | delPrivateData (collection key : String)
  | getStateBatch (keys : List StateKey)
  | getState (key : String)
  | getPrivateData (collection key : String)
  | getStateByRange (startkey endkey : String)
  deriving DecidableEq

/-- A primitive single-key state mutation. -/
inductive WriteOp where
  | put (collection key value : String)
  | del (collection key : String)
  deriving DecidableEq

/-- Single-key mutations performed by one stub call, reading a batch call
as its listed single-key operations in order (the semantics the claims
assume for `PutStateBatch` and `DelStateBatch`); reads mutate nothing. -/
def flattenOp : StubOp → List WriteOp
  | .putStateBatch kvs => kvs.map (fun kv => .put kv.collection kv.key kv.value)
  | .putState k v => [.put "" k v]
  | .putPrivateData c k v => [.put c k v]
  | .delStateBatch ks => ks.map (fun k => .del k.collection k.key)
  | .delState k => [.del "" k]
  | .delPrivateData c k => [.del c k]
  | _ => []

/-- The sequence of single-key mutations of a stub-call trace. -/
def flattenOps (l : List StubOp) : List WriteOp := (l.map flattenOp).flatten

/-- Outcome of one chaincode invocation: the issued stub calls in order,
the `shim.Error`/`shim.Success` response, the query results (`value`
variable) where applicable, the generated key/value list (`kvMap`) resp.
key list (`keys`), and the final generator state. -/
structure RunResult where
  ops : List StubOp
  resp : Except String String
  values : List StateKV := []
  kvGen : List StateKV := []
  keyGen : List StateKey := []
  rand : Nat

/-- An error response issued before touching the generator or the
stub. -/
def errResp (s0 : Nat) (msg : String) : RunResult :=
  { ops := [], resp := .error msg, rand := s0 }

/-- The generation loop of `putManyObjectsBatch` (lines 192-200): per
entry, a key draw then a value draw, each one `RandString`; returns the
`keys` list, the `kvMap` list and the final generator state. -/
def genKVLoop (g : RandGen) (L : Nat) (c : String) :
    Nat → Nat → List String × List StateKV × Nat
  | 0, s => ([], [], s)
  | n + 1, s =>
    let k := RandString g L s
    let v := RandString g L k.2
    let rest := genKVLoop g L c n v.2
    (k.1 :: rest.1, (⟨c, k.1, v.1⟩ : StateKV) :: rest.2.1, rest.2.2)

/-- The generation loop of `getManyObjectsBatch` (lines 335-342) and
`delManyObjectsBatch` (lines 463-470): per entry, a key draw and a
discarded second draw, each one `RandString`. -/
def genKeyLoop (g : RandGen) (L : Nat) (c : String) :
    Nat → Nat → List StateKey × Nat
  | 0, s => ([], s)
  | n + 1, s =>
    let k := RandString g L s
    let d := RandString g L k.2
    let rest := genKeyLoop g L c n d.2
    ((⟨c, k.1⟩ : StateKey) :: rest.1, rest.2)

/-- Generator state after `k` successive `RandString` draws of length `L`
starting from state `s`. -/
def randStateIter (g : RandGen) (L : Nat) (s : Nat) : Nat → Nat
  | 0 => s
  | k + 1 => (RandString g L (randStateIter g L s k)).2

/-- The `k`-th (0-based) string drawn by successive `RandString` calls of
length `L` from state `s`. -/
def nthString (g : RandGen) (L : Nat) (s : Nat) (k : Nat) : String :=
  (RandString g L (randStateIter g L s k)).1

/-- Go `%s` rendering of a `[]string`. -/
def fmtStrSlice (l : List String) : String :=
  "[" ++ String.intercalate " " l ++ "]"

/-- Go `%v`/`%s` rendering of a `[]byte` (list of decimal byte values). -/
def fmtBytes (s : String) : String :=
  "[" ++ String.intercalate " " (s.data.map (fun c => natStr c.toNat)) ++ "]"

/-- Go `%v` rendering of a `shim.StateKV`. -/
def fmtKV (kv : StateKV) : String :=
  "\x7b" ++ kv.collection ++ " " ++ kv.key ++ " " ++ fmtBytes kv.value ++ "\x7d"

/-- Go `%v` rendering of a `[]shim.StateKV`. -/
def fmtKVSlice (l : List StateKV) : String :=
  "[" ++ String.intercalate " " (l.map fmtKV) ++ "]"

/-- The `Failet to set multiple assets` message (lines 124, 237). -/
def failSetMsg (kvMap : List StateKV) (e : String) : String :=
  "Failet to set multiple assets: " ++ fmtKVSlice kvMap ++ " with error: " ++ e

/-- The `Failed to get asset` message (lines 264, 385, 507). -/
def failedGetMsg (args : List String) (e : String) : String :=
  "Failed to get asset: " ++ fmtStrSlice args ++ " with error: " ++ e

/-- The `Assets not found` message (lines 267, 388). -/
def anfMsg (args : List String) : String :=
  "Assets not found: " ++ fmtStrSlice args

/-- The JSON statistics record shared by the three `Many` operations
(lines 245, 402, 522). -/
def statsJson (method : String) (entries : Int) (millis : Nat)
    (keylen : Int) (batchapi : Bool) (collection : String) (seed : Int) :
    String :=
  "\x7b\"method\":\"" ++ method ++ "\",\"entries\":" ++ intStr entries ++
    ",\"millis\":" ++ natStr millis ++ ",\"keylen\":" ++ intStr keylen ++
    ",\"batchapi\":" ++ boolStr batchapi ++ ",\"collection\":\"" ++
    collection ++ "\",\"seed\":" ++ intStr seed ++ "\x7d"

/-- Verbose suffix of `putManyObjectsBatch` (line 242). -/
def putVerboseMsg (o : CommonOpts) (keys : List String) : String :=
  "useBatchAPI: " ++ boolStr o.useBatchAPI ++ ", Collection: `" ++
    o.collection ++ "`, Seed: " ++ intStr o.seed ++ ", KeyLength: " ++
    intStr o.keyLength ++ ", Keys: " ++ String.intercalate ", " keys

/-- Verbose suffix of `getManyObjectsBatch` (lines 394-399). -/
def getVerboseMsg (o : CommonOpts) (value : List StateKV) : String :=
  String.join (value.map (fun kv =>
    kv.key ++ ": " ++ kv.value ++ " (collection:`" ++ kv.collection ++ "`)\n")) ++
    "useBatchAPI: " ++ boolStr o.useBatchAPI ++ ", Seed: " ++ intStr o.seed

/-- Verbose suffix of `delManyObjectsBatch` (lines 513-519). -/
def delVerboseMsg (o : CommonOpts) (keys : List StateKey) : String :=
  "useBatchAPI: " ++ boolStr o.useBatchAPI ++ ", Collection: `" ++
    o.collection ++ "`, Seed: " ++ intStr o.seed ++ ", Keys: " ++
    String.intercalate ", " (keys.map (fun k => k.key))

/-- The value of the Go `err` variable after the write/read/delete
section of a `Many` operation: every modelled stub call succeeds, but in
the non-batch branch with an empty generated list the loop body never
runs and `err` keeps the value left by the option block (see
lines 209-238, 352-382, 479-504). -/
def manyErrAfter (o : CommonOpts) (empty : Bool) : Bool :=
  if o.useBatchAPI then false else if empty then o.errPending else false

/-- The `value` list built by `getManyObjectsBatch` (lines 344-382):
one entry per requested key, in request order, on the batch path by the
modelled `GetStateBatch` semantics and on the non-batch path by the
per-key `GetPrivateData`/`GetState` loop. -/
def getManyValue (ledger : String → String → String) (o : CommonOpts)
    (keys : List StateKey) : List StateKV :=
  if o.useBatchAPI then
    keys.map (fun k => ⟨k.collection, k.key, ledger k.collection k.key⟩)
  else if o.collection ≠ "" then
    keys.map (fun k => ⟨o.collection, k.key, ledger o.collection k.key⟩)
  else keys.map (fun k => ⟨"", k.key, ledger "" k.key⟩)

/-- `putManyObjectsBatch` (lines 139-248).  `millis` stands for the
measured milliseconds (time is not modelled); `s0` is the incoming state
of the package-level generator. -/
def putManyRun (g : RandGen) (millis : Nat) (s0 : Nat) (args : List String) :
    RunResult :=
  if args.length < 1 then
    errResp s0 "Incorrect arguments. Expecting at least one argument - number of random keys/value to write in the ledger"
  else
    let a0 := args.getD 0 ""
    match atoi a0 with
    | none => errResp s0 (atoiErrMsg a0)
    | some keyQty =>
      let o := parseCommonOpts args
      let s1 := g.seedFn o.seed
      let r := genKVLoop g o.keyLength.toNat o.collection keyQty.toNat s1
      let keys := r.1
      let kvMap := r.2.1
      let s2 := r.2.2
      let ops : List StubOp :=
        if o.useBatchAPI then [.putStateBatch kvMap]
        else if o.collection ≠ "" then
          kvMap.map (fun kv => .putPrivateData o.collection kv.key kv.value)
        else kvMap.map (fun kv => .putState kv.key kv.value)
      let errAfter := manyErrAfter o kvMap.isEmpty
      if errAfter then
        { ops := ops, resp := .error (failSetMsg kvMap o.errMsg),
          rand := s2, kvGen := kvMap }
      else
        let verboseMsg := if o.verbose then putVerboseMsg o keys else ""
        { ops := ops,
          resp := .ok ("PutState:" ++
            statsJson "put" keyQty millis o.keyLength o.useBatchAPI
              o.collection o.seed ++ " " ++ verboseMsg),
          rand := s2, kvGen := kvMap }

/-- `getManyObjectsBatch` (lines 282-405).  `ledger c k` is the current
value of key `k` in collection `c` (Go's `nil` for an absent key is the
empty string); `GetStateBatch` is modelled as returning one entry per
requested key in request order, as the claims assume. -/
def getManyRun (g : RandGen) (ledger : String → String → String)
    (millis : Nat) (s0 : Nat) (args : List String) : RunResult :=
  if args.length < 1 then
    errResp s0 "Incorrect arguments. Expecting at least one argument"
  else
    let a0 := args.getD 0 ""
    match atoi a0 with
    | none => errResp s0 (atoiErrMsg a0)
    | some keyQty =>
      let o := parseCommonOpts args
      let s1 := g.seedFn o.seed
      let r := genKeyLoop g o.keyLength.toNat o.collection keyQty.toNat s1
      let keys := r.1
      let s2 := r.2
      let ops : List StubOp :=
        if o.useBatchAPI then [.getStateBatch keys]
        else if o.collection ≠ "" then
          keys.map (fun k => .getPrivateData o.collection k.key)
        else keys.map (fun k => .getState k.key)
      let value : List StateKV := getManyValue ledger o keys
      let errAfter := manyErrAfter o keys.isEmpty
      if errAfter then
        { ops := ops, resp := .error (failedGetMsg args o.errMsg),
          rand := s2, keyGen := keys, values := value }
      else if value.isEmpty then
        { ops := ops, resp := .error (anfMsg args),
          rand := s2, keyGen := keys, values := value }
      else
        let verboseMsg := if o.verbose then getVerboseMsg o value else ""
        { ops := ops,
          resp := .ok ("GetState:" ++
            statsJson "get" keyQty millis o.keyLength o.useBatchAPI
              o.collection o.seed ++ " " ++ verboseMsg),
          rand := s2, keyGen := keys, values := value }

/-- `delManyObjectsBatch` (lines 410-525). -/
def delManyRun (g : RandGen) (millis : Nat) (s0 : Nat) (args : List String) :
    RunResult :=
  if args.length < 1 then
    errResp s0 "Incorrect arguments. Expecting at least one argument"
  else
    let a0 := args.getD 0 ""
    match atoi a0 with
    | none => errResp s0 (atoiErrMsg a0)
    | some keyQty =>
      let o := parseCommonOpts args
      let s1 := g.seedFn o.seed
      let r := genKeyLoop g o.keyLength.toNat o.collection keyQty.toNat s1
      let keys := r.1
      let s2 := r.2
      let ops : List StubOp :=
        if o.useBatchAPI then [.delStateBatch keys]
        else if o.collection ≠ "" then
          keys.map (fun k => .delPrivateData o.collection k.key)
        else keys.map (fun k => .delState k.key)
      let errAfter := manyErrAfter o keys.isEmpty
      if errAfter then
        { ops := ops, resp := .error (failedGetMsg args o.errMsg),
          rand := s2, keyGen := keys }
      else
        let verboseMsg := if o.verbose then delVerboseMsg o keys else ""
        { ops := ops,
          resp := .ok ("DelState:" ++
            statsJson "del" keyQty millis o.keyLength o.useBatchAPI
              o.collection o.seed ++ " " ++ verboseMsg),
          rand := s2, keyGen := keys }

/-- The pairing loop of `putObjectsBatch` (lines 115-120). -/
def pairsOf : List String → List StateKV
  | k :: v :: rest => (⟨"", k, v⟩ : StateKV) :: pairsOf rest
  | _ => []

/-- The `k: v (collection)` result lines of `putObjectsBatch` and
`getObjectsBatch` (lines 128-131, 270-274). -/
def kvLines (l : List StateKV) : String :=
  String.join (l.map (fun kv =>
    kv.key ++ ": " ++ kv.value ++ " (" ++ kv.collection ++ ")\n"))

/-- `putObjectsBatch` (lines 106-134). -/
def putObjectsRun (s0 : Nat) (args : List String) : RunResult :=
  if args.length < 2 then
    errResp s0 "Incorrect arguments. Expecting at least a key and a value"
  else if args.length % 2 ≠ 0 then
    errResp s0 "Incorrect arguments. Expecting even number of arguments: k1, v1, k2, v2, ..., kn, vn"
  else
    let kvMap := pairsOf args
    { ops := [.putStateBatch kvMap], resp := .ok (kvLines kvMap),
      rand := s0, kvGen := kvMap }

/-- `getObjectsBatch` (lines 253-277). -/
def getObjectsRun (ledger : String → String → String) (s0 : Nat)
    (args : List String) : RunResult :=
  if args.length < 1 then
    errResp s0 "Incorrect arguments. Expecting at least one key"
  else
    let keys := args.map (fun k => (⟨"", k⟩ : StateKey))
    let value : List StateKV :=
      keys.map (fun k => ⟨k.collection, k.key, ledger k.collection k.key⟩)
    if value.isEmpty then
      { ops := [.getStateBatch keys], resp := .error (anfMsg args),
        rand := s0, keyGen := keys, values := value }
    else
      { ops := [.getStateBatch keys], resp := .ok (kvLines value),
        rand := s0, keyGen := keys, values := value }

/-- Left zero-padding of a digit list, as done by Go's `%05d` verb. -/
def leftPadChars (c : Char) (w : Nat) (l : List Char) : List Char :=
  List.replicate (w - l.length) c ++ l

/-- Go's `fmt.Sprintf "%05d"`: minimum width 5, zero padding, the sign
counting towards the width. -/
def fmt05 (n : Int) : String :=
  if n < 0 then
    "-" ++ String.mk (leftPadChars '0' 4 ((decDigits n.natAbs).map digitChar))
  else String.mk (leftPadChars '0' 5 ((decDigits n.toNat).map digitChar))

/-- The `OBJ%05d` key of `putRange`/`getRange` (lines 547, 578-579,
599). -/
def objKey (i : Int) : String := "OBJ" ++ fmt05 i

/-- The JSON value written by `putRange` (line 548). -/
def rangeValJson (i : Int) : String :=
  "\x7b\"test\":\"object\",\"message\":\"hello developer!\",\"id\":\"" ++
    intStr i ++ "\"\x7d"

/-- The values of an ascending Go `for i := start; i < stop; i++` loop. -/
def intLoopRange (start stop : Int) : List Int :=
  (List.range (stop - start).toNat).map (fun k => start + Int.ofNat k)

/-- The `valuesToPut` list of `putRange` (lines 543-550). -/
def putRangeKVs (q : Int) : List StateKV :=
  (intLoopRange 0 q).map (fun i => ⟨"", objKey i, rangeValJson i⟩)

/-- The success message of `putRange` (line 560). -/
def putRangeMsg (entries : Int) (millis : Nat) : String :=
  "PutRange:\x7b\"method\":\"putrange\",\"entries\":" ++ intStr entries ++
    ",\"millis\":" ++ natStr millis ++ ",\"batchapi\":true\x7d"

/-- `putRange` (lines 531-563). -/
def putRangeRun (millis : Nat) (s0 : Nat) (args : List String) : RunResult :=
  if args.length < 1 then
    errResp s0 "Incorrect arguments. Expecting at least one argument"
  else
    let a0 := args.getD 0 ""
    match atoi a0 with
    | none => errResp s0 (atoiErrMsg a0)
    | some keyQty =>
      let valuesToPut := putRangeKVs keyQty
      { ops := [.putStateBatch valuesToPut],
        resp := .ok (putRangeMsg (keyQty + 1) millis),
        rand := s0, kvGen := valuesToPut }

/-- Byte-wise (here character-wise, all strings being ASCII) strict
lexicographic order on Go strings. -/
def charListLt : List Char → List Char → Bool
  | _, [] => false
  | [], _ :: _ => true
  | a :: as, b :: bs =>
    if a.toNat < b.toNat then true
    else if b.toNat < a.toNat then false
    else charListLt as bs

/-- Go's `<` on strings. -/
def strLtB (a b : String) : Bool := charListLt a.data b.data

/-- Go's `<=` on strings. -/
def strLeB (a b : String) : Bool := !(strLtB b a)

/-- Whether `key` falls in the half-open range `[startkey, endkey)`
iterated by `GetStateByRange` (shim semantics: startKey inclusive,
endKey exclusive, byte-lexicographic order). -/
def rangeCovers (startkey endkey key : String) : Bool :=
  strLeB startkey key && strLtB key endkey

/-- `GetStateByRange startkey endkey` over a state snapshot `db` listed
in iteration (lexicographic) order: the entries with key in
`[startkey, endkey)`.  The shim is external; this is its documented
semantics. -/
def rangeQuery (db : List (String × String)) (startkey endkey : String) :
    List (String × String) :=
  db.filter (fun kv => rangeCovers startkey endkey kv.1)

/-- The substring `s[3:]` of a Go string. -/
def strFrom3 (s : String) : String := String.mk (s.data.drop 3)

/-- The verbose suffix of `getRange` (lines 640-652), including its
trimming of the final character of the accumulated builder. -/
def rangeVerbose (resKV : List StateKV) : String :=
  let toStr := ",verbose:\x7b" ++
    String.join (resKV.map (fun kv => "\"" ++ kv.key ++ "\":\"" ++ kv.value ++ "\","))
  String.mk (toStr.data.take (toStr.data.length - 1)) ++ "\x7d"

/-- The success message of `getRange` (line 654). -/
def getRangeMsg (entries : Nat) (millis : Nat) (batchapi : Bool)
    (verbose : String) : String :=
  "GetRange:\x7b\"method\":\"getrange\",\"entries\":" ++ natStr entries ++
    ",\"millis\":" ++ natStr millis ++ ",\"batchapi\":" ++ boolStr batchapi ++
    verbose ++ "\x7d"

/-- `getRange` (lines 568-658).  `lookup` serves `GetStateBatch` (one
entry per requested key, in order), `db` serves `GetStateByRange`. -/
def getRangeRun (lookup : String → String → String)
    (db : List (String × String)) (millis : Nat) (s0 : Nat)
    (args : List String) : RunResult :=
  if args.length < 1 then
    errResp s0 "Incorrect arguments. Expecting at least one argument"
  else
    let a0 := args.getD 0 ""
    match atoi a0 with
    | none => errResp s0 (atoiErrMsg a0)
    | some keyQty =>
      let startkey := objKey 0
      let endkey := objKey keyQty
      let verboseFlag := decide (find args "verbose" ≠ -1)
      let useBatchAPI := decide (find args "nobatchapi" = -1)
      let startInt := (atoi (strFrom3 startkey)).getD 0
      let endInt := (atoi (strFrom3 endkey)).getD 0
      let stateKeys : List StateKey :=
        (intLoopRange startInt endInt).map (fun i => ⟨"", objKey i⟩)
      let resKV : List StateKV :=
        if useBatchAPI then
          stateKeys.map (fun k => ⟨k.collection, k.key, lookup k.collection k.key⟩)
        else (rangeQuery db startkey endkey).map (fun kv => ⟨"", kv.1, kv.2⟩)
      let ops : List StubOp :=
        if useBatchAPI then [.getStateBatch stateKeys]
        else [.getStateByRange startkey endkey]
      let verbose := if verboseFlag then rangeVerbose resKV else ""
      { ops := ops,
        resp := .ok (getRangeMsg resKV.length millis useBatchAPI verbose),
        rand := s0, values := resKV, keyGen := stateKeys }

/-- `Invoke` (lines 71-101): dispatch on the function name. -/
def invokeRun (g : RandGen) (ledger : String → String → String)
    (db : List (String × String)) (millis : Nat) (s0 : Nat)
    (function : String) (args : List String) : RunResult :=
  if function = "getObjectsBatch" then getObjectsRun ledger s0 args
  else if function = "getManyObjectsBatch" then getManyRun g ledger millis s0 args
  else if function = "putObjectsBatch" then putObjectsRun s0 args
  else if function = "putManyObjectsBatch" then putManyRun g millis s0 args
  else if function = "delManyObjectsBatch" then delManyRun g millis s0 args
  else if function = "putRange" then putRangeRun millis s0 args
  else if function = "getRange" then getRangeRun ledger db millis s0 args
  else errResp s0 "Received unknown function invocation"

/-- The parsed mandatory count argument (`args[0]` through
`strconv.Atoi`), shared by the five counting operations. -/
def parseCount (args : List String) : Option Int :=
  if args.length < 1 then none else atoi (args.getD 0 "")

/-- A concrete generator instance used in witnesses and counterexamples:
seeding always lands in state `0`, and `Intn n` at state `s` returns
`s % n` and steps to `s + 1`. -/
def exG : RandGen := ⟨fun _ => 0, fun n s => (s % n, s + 1)⟩

/-! ### Shape lemmas for the operation embeddings -/

/-- The `kvMap` recorded by `putManyObjectsBatch` as a function of the
parsed parameters. -/
theorem putManyRun_kvGen (g : RandGen) (m s0 : Nat) (a : List String) :
    (putManyRun g m s0 a).kvGen =
      match parseCount a with
      | none => []
      | some q =>
        (genKVLoop g (parseCommonOpts a).keyLength.toNat
          (parseCommonOpts a).collection q.toNat
          (g.seedFn (parseCommonOpts a).seed)).2.1 := by
  unfold putManyRun parseCount
  by_cases h : a.length < 1
  · simp [h, errResp]
  · simp only [h, if_false]
    cases hA : atoi (a.getD 0 "") with
    | none => simp [errResp]
    | some q =>
      simp only []
      repeat' split
      all_goals rfl

/-- The stub-call trace of `putManyObjectsBatch` as a function of the
parsed parameters. -/
theorem putManyRun_ops (g : RandGen) (m s0 : Nat) (a : List String) :
    (putManyRun g m s0 a).ops =
      match parseCount a with
      | none => []
      | some q =>
        let o := parseCommonOpts a
        let kvMap := (genKVLoop g o.keyLength.toNat o.collection q.toNat
          (g.seedFn o.seed)).2.1
        if o.useBatchAPI then [.putStateBatch kvMap]
        else if o.collection ≠ "" then
          kvMap.map (fun kv => .putPrivateData o.collection kv.key kv.value)
        else kvMap.map (fun kv => .putState kv.key kv.value) := by
  unfold putManyRun parseCount
  by_cases h : a.length < 1
  · simp [h, errResp]
  · simp only [h, if_false]
    cases hA : atoi (a.getD 0 "") with
    | none => simp [errResp]
    | some q =>
      simp only []
      repeat' split
      all_goals rfl

/-- The generated key list recorded by `getManyObjectsBatch`. -/
theorem getManyRun_keyGen (g : RandGen) (ledger : String → String → String)
    (m s0 : Nat) (a : List String) :
    (getManyRun g ledger m s0 a).keyGen =
      match parseCount a with
      | none => []
      | some q =>
        (genKeyLoop g (parseCommonOpts a).keyLength.toNat
          (parseCommonOpts a).collection q.toNat
          (g.seedFn (parseCommonOpts a).seed)).1 := by
  unfold getManyRun parseCount
  by_cases h : a.length < 1
  · simp [h, errResp]
  · simp only [h, if_false]
    cases hA : atoi (a.getD 0 "") with
    | none => simp [errResp]
    | some q =>
      simp only []
      repeat' split
      all_goals rfl

/-- The generated key list recorded by `delManyObjectsBatch`. -/
theorem delManyRun_keyGen (g : RandGen) (m s0 : Nat) (a : List String) :
    (delManyRun g m s0 a).keyGen =
      match parseCount a with
      | none => []
      | some q =>
        (genKeyLoop g (parseCommonOpts a).keyLength.toNat
          (parseCommonOpts a).collection q.toNat
          (g.seedFn (parseCommonOpts a).seed)).1 := by
  unfold delManyRun parseCount
  by_cases h : a.length < 1
  · simp [h, errResp]
  · simp only [h, if_false]
    cases hA : atoi (a.getD 0 "") with
    | none => simp [errResp]
    | some q =>
      simp only []
      repeat' split
      all_goals rfl

/-- The stub-call trace of `delManyObjectsBatch`. -/
theorem delManyRun_ops (g : RandGen) (m s0 : Nat) (a : List String) :
    (delManyRun g m s0 a).ops =
      match parseCount a with
      | none => []
      | some q =>
        let o := parseCommonOpts a
        let keys := (genKeyLoop g o.keyLength.toNat o.collection q.toNat
          (g.seedFn o.seed)).1
        if o.useBatchAPI then [.delStateBatch keys]
        else if o.collection ≠ "" then
          keys.map (fun k => .delPrivateData o.collection k.key)
        else keys.map (fun k => .delState k.key) := by
  unfold delManyRun parseCount
  by_cases h : a.length < 1
  · simp [h, errResp]
  · simp only [h, if_false]
    cases hA : atoi (a.getD 0 "") with
    | none => simp [errResp]
    | some q =>
      simp only []
      repeat' split
      all_goals rfl

/-! ### Generation-loop lemmas -/

/-- The generation loop emits one `kvMap` entry per iteration. -/
theorem genKVLoop_length (g : RandGen) (L : Nat) (c : String) :
    ∀ n s, (genKVLoop g L c n s).2.1.length = n := by
  intro n
  induction n with
  | zero => intro s; rfl
  | succ n ih => intro s; simp [genKVLoop, ih]

/-- Every generated `kvMap` entry carries the collection parameter. -/
theorem genKVLoop_collection (g : RandGen) (L : Nat) (c : String) :
    ∀ n s kv, kv ∈ (genKVLoop g L c n s).2.1 → kv.collection = c := by
  intro n
  induction n with
  | zero => intro s kv h; simp [genKVLoop] at h
  | succ n ih =>
    intro s kv h
    simp only [genKVLoop, List.mem_cons] at h
    rcases h with h | h
    · rw [h]
    · exact ih _ kv h

/-- The key/value pairs generated do not depend on the collection
parameter. -/
theorem genKVLoop_pairs_collection_irrel (g : RandGen) (L : Nat)
    (c c' : String) : ∀ n s,
    (genKVLoop g L c n s).2.1.map (fun kv => (kv.key, kv.value)) =
    (genKVLoop g L c' n s).2.1.map (fun kv => (kv.key, kv.value)) := by
  intro n
  induction n with
  | zero => intro s; rfl
  | succ n ih => intro s; simp [genKVLoop, ih]

/-- The keys drawn by the get/del loop and the put loop coincide: both
consume two `RandString` draws per entry and take the first as the
key. -/
theorem genKeyLoop_keys_eq_genKVLoop (g : RandGen) (L : Nat)
    (c c' : String) : ∀ n s,
    (genKeyLoop g L c n s).1.map (fun k => k.key) =
    (genKVLoop g L c' n s).2.1.map (fun kv => kv.key) := by
  intro n
  induction n with
  | zero => intro s; rfl
  | succ n ih => intro s; simp [genKeyLoop, genKVLoop, ih]

theorem randStateIter_add (g : RandGen) (L : Nat) (s : Nat) :
    ∀ j k, randStateIter g L s (k + j) =
      randStateIter g L (randStateIter g L s k) j := by
  intro j
  induction j with
  | zero => intro k; rfl
  | succ j ih =>
    intro k
    show (RandString g L (randStateIter g L s (k + j))).2 = _
    rw [ih k]
    rfl

/-- The `i`-th generated key is the `2*i`-th string drawn. -/
theorem genKVLoop_keys_formula (g : RandGen) (L : Nat) (c : String) :
    ∀ n s, (genKVLoop g L c n s).2.1.map (fun kv => kv.key) =
      (List.range n).map (fun i => nthString g L s (2 * i)) := by
  intro n
  induction n with
  | zero => intro s; rfl
  | succ n ih =>
    intro s
    rw [List.range_succ_eq_map]
    simp only [genKVLoop, List.map_cons, List.map_map]
    refine congrArg₂ List.cons rfl ?_
    rw [ih]
    apply List.map_congr_left
    intro i _
    simp only [Function.comp]
    show nthString g L _ (2 * i) = nthString g L s (2 * (i + 1))
    have h2 : 2 * (i + 1) = 2 + 2 * i := by omega
    rw [h2]
    unfold nthString
    rw [randStateIter_add g L s (2 * i) 2]
    rfl

/-- Every generated key entry of the get/del loop carries the collection
parameter. -/
theorem genKeyLoop_collection (g : RandGen) (L : Nat) (c : String) :
    ∀ n s k, k ∈ (genKeyLoop g L c n s).1 → k.collection = c := by
  intro n
  induction n with
  | zero => intro s k h; simp [genKeyLoop] at h
  | succ n ih =>
    intro s k h
    simp only [genKeyLoop, List.mem_cons] at h
    rcases h with h | h
    · rw [h]
    · exact ih _ k h

/-! ### Flattening lemmas -/

theorem flattenOps_map_single_kv (f : StateKV → StubOp) (w : StateKV → WriteOp)
    (h : ∀ kv, flattenOp (f kv) = [w kv]) (l : List StateKV) :
    flattenOps (l.map f) = l.map w := by
  induction l with
  | nil => rfl
  | cons kv l ih =>
    simp only [List.map_cons, flattenOps, List.flatten_cons, h]
    simp only [flattenOps] at ih
    rw [ih]
    rfl

theorem flattenOps_map_single_key (f : StateKey → StubOp) (w : StateKey → WriteOp)
    (h : ∀ k, flattenOp (f k) = [w k]) (l : List StateKey) :
    flattenOps (l.map f) = l.map w := by
  induction l with
  | nil => rfl
  | cons k l ih =>
    simp only [List.map_cons, flattenOps, List.flatten_cons, h]
    simp only [flattenOps] at ih
    rw [ih]
    rfl

theorem flattenOps_putBatch (kvs : List StateKV) (c : String)
    (h : ∀ kv ∈ kvs, kv.collection = c) :
    flattenOps [StubOp.putStateBatch kvs] =
      kvs.map (fun kv => WriteOp.put c kv.key kv.value) := by
  simp only [flattenOps, List.map_cons, List.map_nil, flattenOp,
    List.flatten_cons, List.flatten_nil, List.append_nil]
  exact List.map_congr_left fun kv hkv => by rw [h kv hkv]

theorem flattenOps_delBatch (ks : List StateKey) (c : String)
    (h : ∀ k ∈ ks, k.collection = c) :
    flattenOps [StubOp.delStateBatch ks] =
      ks.map (fun k => WriteOp.del c k.key) := by
  simp only [flattenOps, List.map_cons, List.map_nil, flattenOp,
    List.flatten_cons, List.flatten_nil, List.append_nil]
  exact List.map_congr_left fun k hk => by rw [h k hk]

/-! ### Claim theorems -/

/-- C2: key/value generation is deterministic.  Two invocations of
`putManyObjectsBatch` whose parsed count, seed and keylength agree
generate the same key/value pairs, whatever the incoming state of the
package-level generator (`RandReset(seed)` reseeds before generating) and
whatever the other arguments (in particular the collection). -/
theorem putMany_generation_deterministic
    (g : RandGen) (m m' s0 s0' : Nat) (a a' : List String)
    (hc : parseCount a = parseCount a')
    (hs : (parseCommonOpts a).seed = (parseCommonOpts a').seed)
    (hk : (parseCommonOpts a).keyLength = (parseCommonOpts a').keyLength) :
    (putManyRun g m s0 a).kvGen.map (fun kv => (kv.key, kv.value)) =
    (putManyRun g m' s0' a').kvGen.map (fun kv => (kv.key, kv.value)) := by
  rw [putManyRun_kvGen, putManyRun_kvGen, ← hc]
  cases hpc : parseCount a with
  | none => rfl
  | some q =>
    simp only []
    rw [← hs, ← hk]
    exact genKVLoop_pairs_collection_irrel g _ _ _ _ _

/-- Witness for C2 at concrete arguments: state 5 versus state 9, a
collection option present on one side only. -/
theorem putMany_generation_deterministic_witness :
    (putManyRun exG 3 5 ["2", "collection", "C"]).kvGen.map
        (fun kv => (kv.key, kv.value)) =
      (putManyRun exG 4 9 ["2"]).kvGen.map (fun kv => (kv.key, kv.value)) :=
  putMany_generation_deterministic exG 3 4 5 9 ["2", "collection", "C"] ["2"]
    (by decide) (by decide) (by decide)

/-- C3: for equal parsed count, seed and keylength, the key sequences
targeted by `getManyObjectsBatch` and `delManyObjectsBatch` equal the key
sequence written by `putManyObjectsBatch`, and key `i` is the `2*i`-th
string drawn from the generator seeded with the seed parameter. -/
theorem many_keys_agree
    (g : RandGen) (ledger : String → String → String)
    (mp mg md s0p s0g s0d : Nat) (a ag ad : List String)
    (hcg : parseCount ag = parseCount a)
    (hcd : parseCount ad = parseCount a)
    (hsg : (parseCommonOpts ag).seed = (parseCommonOpts a).seed)
    (hsd : (parseCommonOpts ad).seed = (parseCommonOpts a).seed)
    (hkg : (parseCommonOpts ag).keyLength = (parseCommonOpts a).keyLength)
    (hkd : (parseCommonOpts ad).keyLength = (parseCommonOpts a).keyLength) :
    (getManyRun g ledger mg s0g ag).keyGen.map (fun k => k.key) =
      (putManyRun g mp s0p a).kvGen.map (fun kv => kv.key) ∧
    (delManyRun g md s0d ad).keyGen.map (fun k => k.key) =
      (putManyRun g mp s0p a).kvGen.map (fun kv => kv.key) ∧
    ∀ q, parseCount a = some q →
      (putManyRun g mp s0p a).kvGen.map (fun kv => kv.key) =
        (List.range q.toNat).map (fun i =>
          nthString g (parseCommonOpts a).keyLength.toNat
            (g.seedFn (parseCommonOpts a).seed) (2 * i)) := by
  refine ⟨?_, ?_, ?_⟩
  · rw [getManyRun_keyGen, putManyRun_kvGen, hcg]
    cases hpc : parseCount a with
    | none => rfl
    | some q =>
      simp only []
      rw [hsg, hkg]
      exact genKeyLoop_keys_eq_genKVLoop g _ _ _ _ _
  · rw [delManyRun_keyGen, putManyRun_kvGen, hcd]
    cases hpc : parseCount a with
    | none => rfl
    | some q =>
      simp only []
      rw [hsd, hkd]
      exact genKeyLoop_keys_eq_genKVLoop g _ _ _ _ _
  · intro q hq
    rw [putManyRun_kvGen, hq]
    exact genKVLoop_keys_formula g _ _ _ _

/-- Witness for C3 at concrete arguments. -/
theorem many_keys_agree_witness :
    (getManyRun exG (fun _ _ => "") 0 0 ["1", "collection", "X"]).keyGen.map
        (fun k => k.key) =
      (putManyRun exG 0 0 ["1"]).kvGen.map (fun kv => kv.key) ∧
    (delManyRun exG 0 0 ["1", "verbose"]).keyGen.map (fun k => k.key) =
      (putManyRun exG 0 0 ["1"]).kvGen.map (fun kv => kv.key) ∧
    (putManyRun exG 0 0 ["1"]).kvGen.map (fun kv => kv.key) =
      (List.range (1 : Int).toNat).map (fun i =>
        nthString exG (parseCommonOpts ["1"]).keyLength.toNat
          (exG.seedFn (parseCommonOpts ["1"]).seed) (2 * i)) := by
  obtain ⟨h1, h2, h3⟩ := many_keys_agree exG (fun _ _ => "") 0 0 0 0 0 0
    ["1"] ["1", "collection", "X"] ["1", "verbose"]
    (by decide) (by decide) (by decide) (by decide) (by decide) (by decide)
  exact ⟨h1, h2, h3 1 rfl⟩

/-- C1 counterexample: two invocations of `putManyObjectsBatch` that are
identical except for the presence of the literal argument `nobatchapi`
can apply different write sequences: appending `nobatchapi` after a
trailing `collection` option makes it the collection value, so the
non-batch path writes to collection `nobatchapi` while the batch path
writes to the default collection. -/
theorem putMany_path_equiv_counterexample :
    flattenOps (putManyRun exG 0 0 ["1", "collection"]).ops ≠
      flattenOps (putManyRun exG 0 0 ["1", "collection", "nobatchapi"]).ops := by
  decide

/-- C1 (amended): for two invocations of `putManyObjectsBatch`
(resp. `delManyObjectsBatch`) whose parsed count, seed, keylength and
collection agree, one on the batch path and one on the non-batch path,
the flattened write (resp. delete) sequences coincide, reading each batch
call as its listed single-key operations in order. -/
theorem putDelMany_path_equiv
    (g : RandGen) (mp mp' md md' s0p s0p' s0d s0d' : Nat) (a a' : List String)
    (hc : parseCount a = parseCount a')
    (hs : (parseCommonOpts a).seed = (parseCommonOpts a').seed)
    (hk : (parseCommonOpts a).keyLength = (parseCommonOpts a').keyLength)
    (hcol : (parseCommonOpts a).collection = (parseCommonOpts a').collection)
    (hb : (parseCommonOpts a).useBatchAPI = true)
    (hb' : (parseCommonOpts a').useBatchAPI = false) :
    flattenOps (putManyRun g mp s0p a).ops =
      flattenOps (putManyRun g mp' s0p' a').ops ∧
    flattenOps (delManyRun g md s0d a).ops =
      flattenOps (delManyRun g md' s0d' a').ops := by
  constructor
  · rw [putManyRun_ops, putManyRun_ops, ← hc]
    cases hpc : parseCount a with
    | none => rfl
    | some q =>
      simp only [hb, hb', if_true, if_false, Bool.false_eq_true]
      rw [← hs, ← hk, ← hcol]
      by_cases hcc : (parseCommonOpts a).collection = ""
      · rw [if_neg (by simp [hcc])]
        rw [flattenOps_putBatch _ (parseCommonOpts a).collection
          (genKVLoop_collection g _ _ _ _)]
        rw [flattenOps_map_single_kv (fun kv => StubOp.putState kv.key kv.value)
          (fun kv => WriteOp.put "" kv.key kv.value) (fun kv => rfl)]
        rw [hcc]
      · rw [if_pos (by simpa using hcc)]
        rw [flattenOps_putBatch _ (parseCommonOpts a).collection
          (genKVLoop_collection g _ _ _ _)]
        rw [flattenOps_map_single_kv
          (fun kv => StubOp.putPrivateData (parseCommonOpts a).collection kv.key kv.value)
          (fun kv => WriteOp.put (parseCommonOpts a).collection kv.key kv.value)
          (fun kv => rfl)]
  · rw [delManyRun_ops, delManyRun_ops, ← hc]
    cases hpc : parseCount a with
    | none => rfl
    | some q =>
      simp only [hb, hb', if_true, if_false, Bool.false_eq_true]
      rw [← hs, ← hk, ← hcol]
      by_cases hcc : (parseCommonOpts a).collection = ""
      · rw [if_neg (by simp [hcc])]
        rw [flattenOps_delBatch _ (parseCommonOpts a).collection
          (genKeyLoop_collection g _ _ _ _)]
        rw [flattenOps_map_single_key (fun k => StubOp.delState k.key)
          (fun k => WriteOp.del "" k.key) (fun k => rfl)]
        rw [hcc]
      · rw [if_pos (by simpa using hcc)]
        rw [flattenOps_delBatch _ (parseCommonOpts a).collection
          (genKeyLoop_collection g _ _ _ _)]
        rw [flattenOps_map_single_key
          (fun k => StubOp.delPrivateData (parseCommonOpts a).collection k.key)
          (fun k => WriteOp.del (parseCommonOpts a).collection k.key)
          (fun k => rfl)]

/-- Witness for the amended C1 at concrete arguments. -/
theorem putDelMany_path_equiv_witness :
    flattenOps (putManyRun exG 0 0 ["2"]).ops =
      flattenOps (putManyRun exG 1 7 ["2", "nobatchapi"]).ops ∧
    flattenOps (delManyRun exG 0 0 ["2"]).ops =
      flattenOps (delManyRun exG 1 7 ["2", "nobatchapi"]).ops :=
  putDelMany_path_equiv exG 0 1 0 1 0 7 0 7 ["2"] ["2", "nobatchapi"]
    (by decide) (by decide) (by decide) (by decide) (by decide) (by decide)

/-- C4 counterexample: for a successful invocation with parsed count
`-1`, the batch path issues one `PutStateBatch` carrying `0` (not `-1`)
entries, and the non-batch path issues `0` (not `-1`) calls. -/
theorem putMany_call_count_counterexample :
    (putManyRun exG 0 0 ["-1"]).resp.isOk = true ∧
    (putManyRun exG 0 0 ["-1"]).ops = [StubOp.putStateBatch []] ∧
    (putManyRun exG 0 0 ["-1", "nobatchapi"]).resp.isOk = true ∧
    (putManyRun exG 0 0 ["-1", "nobatchapi"]).ops.length = 0 ∧
    parseCount ["-1"] = some (-1) ∧ ¬ ((0 : Int) = -1) := by
  decide

/-- C4 (amended): on a successful `putManyObjectsBatch` with parsed
count `q`, the batch path issues exactly one state-database call (a
single `PutStateBatch` carrying all `max q 0` generated entries), and
the non-batch path issues one `PutState` (resp. `PutPrivateData` when a
collection is given) call per generated entry, i.e. `max q 0` calls. -/
theorem putMany_call_count (g : RandGen) (m s0 : Nat) (a : List String)
    (q : Int) (hq : parseCount a = some q)
    (hok : (putManyRun g m s0 a).resp.isOk = true) :
    ((parseCommonOpts a).useBatchAPI = true →
      (putManyRun g m s0 a).ops =
        [StubOp.putStateBatch (putManyRun g m s0 a).kvGen] ∧
      (putManyRun g m s0 a).kvGen.length = q.toNat) ∧
    ((parseCommonOpts a).useBatchAPI = false →
      (putManyRun g m s0 a).ops =
        (if (parseCommonOpts a).collection ≠ "" then
          (putManyRun g m s0 a).kvGen.map (fun kv =>
            StubOp.putPrivateData (parseCommonOpts a).collection kv.key kv.value)
        else
          (putManyRun g m s0 a).kvGen.map (fun kv =>
            StubOp.putState kv.key kv.value)) ∧
      (putManyRun g m s0 a).ops.length = q.toNat) := by
  rw [putManyRun_ops, putManyRun_kvGen, hq]
  simp only []
  constructor
  · intro hb
    rw [hb]
    exact ⟨by simp, by simp [genKVLoop_length]⟩
  · intro hb
    rw [hb]
    constructor
    · simp
    · by_cases hcc : (parseCommonOpts a).collection = "" <;>
        simp [hcc, genKVLoop_length]

/-- Witness for the amended C4 at concrete arguments. -/
theorem putMany_call_count_witness :
    ((parseCommonOpts ["2"]).useBatchAPI = true →
      (putManyRun exG 0 0 ["2"]).ops =
        [StubOp.putStateBatch (putManyRun exG 0 0 ["2"]).kvGen] ∧
      (putManyRun exG 0 0 ["2"]).kvGen.length = (2 : Int).toNat) ∧
    ((parseCommonOpts ["2"]).useBatchAPI = false →
      (putManyRun exG 0 0 ["2"]).ops =
        (if (parseCommonOpts ["2"]).collection ≠ "" then
          (putManyRun exG 0 0 ["2"]).kvGen.map (fun kv =>
            StubOp.putPrivateData (parseCommonOpts ["2"]).collection kv.key kv.value)
        else
          (putManyRun exG 0 0 ["2"]).kvGen.map (fun kv =>
            StubOp.putState kv.key kv.value)) ∧
      (putManyRun exG 0 0 ["2"]).ops.length = (2 : Int).toNat) :=
  putMany_call_count exG 0 0 ["2"] 2 (by decide) (by decide)

/-! ### `find` semantics -/

/-- Full characterisation of `findFrom`: either the needle is absent and
the result is `-1`, or the result is the offset index of the first
occurrence. -/
theorem findFrom_spec (x : String) : ∀ (l : List String) (i : Nat),
    (findFrom x l i = -1 ∧ ¬ x ∈ l) ∨
    (∃ j : Nat, findFrom x l i = Int.ofNat (i + j) ∧ l.get? j = some x ∧
      ∀ j' : Nat, j' < j → l.get? j' ≠ some x) := by
  intro l
  induction l with
  | nil => intro i; left; exact ⟨rfl, by simp⟩
  | cons n rest ih =>
    intro i
    by_cases h : x = n
    · right
      refine ⟨0, ?_, ?_, ?_⟩
      · simp [findFrom, h]
      · simp [h]
      · intro j' hj'; omega
    · rcases ih (i + 1) with ⟨h1, h2⟩ | ⟨j, h1, h2, h3⟩
      · left
        constructor
        · simp only [findFrom, if_neg h]
          exact h1
        · simp [h, h2]
      · right
        refine ⟨j + 1, ?_, ?_, ?_⟩
        · simp only [findFrom, if_neg h]
          rw [h1]
          congr 1
          omega
        · simpa using h2
        · intro j' hj'
          cases j' with
          | zero =>
            simp only [List.get?]
            intro hc
            exact h (by injection hc with hc; rw [hc])
          | succ j'' =>
            simp only [List.get?]
            exact h3 j'' (by omega)

/-- `find` returns `-1` exactly when the needle does not occur. -/
theorem find_eq_neg_one_iff (a : List String) (x : String) :
    find a x = -1 ↔ ¬ x ∈ a := by
  unfold find
  rcases findFrom_spec x a 0 with ⟨h1, h2⟩ | ⟨j, h1, h2, h3⟩
  · exact ⟨fun _ => h2, fun _ => h1⟩
  · rw [h1]
    constructor
    · intro hc; cases hc
    · intro hc
      exact absurd (List.get?_mem h2) hc

/-- When `find` returns a non-negative index, that index holds the first
occurrence of the needle. -/
theorem find_first_occurrence (a : List String) (x : String) (j : Nat)
    (h : find a x = Int.ofNat j) :
    a.get? j = some x ∧ ∀ j' : Nat, j' < j → a.get? j' ≠ some x := by
  unfold find at h
  rcases findFrom_spec x a 0 with ⟨h1, _⟩ | ⟨j', h1, h2, h3⟩
  · rw [h1] at h; cases h
  · rw [h1] at h
    have : j' = j := by
      have := Int.ofNat.inj h
      omega
    rw [← this]
    exact ⟨h2, h3⟩

/-- The batch flag equals the absence of the `nobatchapi` literal. -/
theorem useBatch_eq_not_mem (a : List String) :
    (parseCommonOpts a).useBatchAPI = decide (¬ "nobatchapi" ∈ a) := by
  show decide (find a "nobatchapi" = -1) = decide (¬ "nobatchapi" ∈ a)
  exact decide_eq_decide.mpr (find_eq_neg_one_iff a "nobatchapi")

/-- Field lemma for the parsed seed. -/
theorem parseOpts_seed (a : List String) :
    (parseCommonOpts a).seed =
      (match optInt a "seed" with
        | some z => z
        | none => defaultSeed) := rfl

/-- Field lemma for the parsed key length. -/
theorem parseOpts_keyLength (a : List String) :
    (parseCommonOpts a).keyLength =
      (match optInt a "keylength" with
        | some z => z
        | none => defaultKeyLength) := rfl

/-- Field lemma for the parsed collection. -/
theorem parseOpts_collection (a : List String) :
    (parseCommonOpts a).collection =
      (if optAttempt a "collection" then optValue a "collection" else "") := rfl

/-- C10: option recognition and fallback semantics shared by
`putManyObjectsBatch`, `getManyObjectsBatch` and `delManyObjectsBatch`
(all three call the same option block, embedded once as
`parseCommonOpts`): `find` returns the smallest index of an exact
occurrence anywhere in the argument list or `-1`; the seed used defaults
to 1 and the key length to 7 whenever the option literal is absent, is
the last argument, or is followed by a value `strconv.Atoi` rejects; the
collection defaults to the empty string; present and parseable option
values are taken verbatim. -/
theorem option_parsing_semantics (a : List String) (x : String) :
    (find a x = -1 ↔ ¬ x ∈ a) ∧
    (∀ j : Nat, find a x = Int.ofNat j →
      a.get? j = some x ∧ ∀ j' : Nat, j' < j → a.get? j' ≠ some x) ∧
    ((find a "seed" = -1 ∨ find a "seed" + 1 = (a.length : Int) ∨
        atoi (optValue a "seed") = none) →
      (parseCommonOpts a).seed = 1) ∧
    ((find a "keylength" = -1 ∨ find a "keylength" + 1 = (a.length : Int) ∨
        atoi (optValue a "keylength") = none) →
      (parseCommonOpts a).keyLength = 7) ∧
    ((find a "collection" = -1 ∨ find a "collection" + 1 = (a.length : Int)) →
      (parseCommonOpts a).collection = "") ∧
    (∀ z : Int, optInt a "seed" = some z → (parseCommonOpts a).seed = z) ∧
    (∀ z : Int, optInt a "keylength" = some z →
      (parseCommonOpts a).keyLength = z) ∧
    (optAttempt a "collection" = true →
      (parseCommonOpts a).collection = optValue a "collection") := by
  have hidx : ∀ y : String, find a y ≠ -1 → find a y + 1 ≤ (a.length : Int) ∧
      0 ≤ find a y := by
    intro y hy
    rcases findFrom_spec y a 0 with ⟨h1, _⟩ | ⟨j, h1, h2, _⟩
    · exact absurd h1 hy
    · unfold find
      rw [h1]
      have hj : j < a.length := by
        by_contra hge
        rw [List.get?_eq_none.mpr (by omega)] at h2
        cases h2
      simp only [Int.ofNat_eq_coe, Nat.zero_add]
      constructor
      · omega
      · omega
  have hnone : ∀ y : String,
      (find a y = -1 ∨ find a y + 1 = (a.length : Int) ∨
        atoi (optValue a y) = none) → optInt a y = none := by
    intro y hy
    unfold optInt optAttempt
    rcases hy with h1 | h2 | h3
    · simp [h1]
    · have : ¬ (find a y + 1 < (a.length : Int)) := by omega
      simp [this]
    · by_cases hatt : find a y ≠ -1 ∧ find a y + 1 < (a.length : Int)
      · simp [hatt, h3]
      · simp [hatt]
  refine ⟨find_eq_neg_one_iff a x, find_first_occurrence a x, ?_, ?_, ?_, ?_, ?_, ?_⟩
  · intro h
    rw [parseOpts_seed, hnone "seed" h]
    rfl
  · intro h
    rw [parseOpts_keyLength, hnone "keylength" h]
    rfl
  · intro h
    have hf : optAttempt a "collection" = false := by
      unfold optAttempt
      rcases h with h1 | h2
      · simp [h1]
      · have : ¬ (find a "collection" + 1 < (a.length : Int)) := by omega
        simp [this]
    rw [parseOpts_collection, hf]
    rfl
  · intro z hz
    rw [parseOpts_seed, hz]
  · intro z hz
    rw [parseOpts_keyLength, hz]
  · intro hatt
    rw [parseOpts_collection, hatt]
    rfl

/-- Witness for C10 at concrete arguments: a parsed seed value, a
defaulted seed (option last), and a defaulted key length (bad value). -/
theorem option_parsing_semantics_witness :
    (parseCommonOpts ["5", "seed", "9"]).seed = 9 ∧
    (parseCommonOpts ["5", "seed"]).seed = 1 ∧
    (parseCommonOpts ["5", "keylength", "zz"]).keyLength = 7 ∧
    find ["5", "seed", "9"] "seed" = Int.ofNat 1 := by
  obtain ⟨-, -, -, -, -, hs, -, -⟩ :=
    option_parsing_semantics ["5", "seed", "9"] "seed"
  obtain ⟨-, -, hd, -, -, -, -, -⟩ :=
    option_parsing_semantics ["5", "seed"] "seed"
  obtain ⟨-, -, -, hk, -, -, -, -⟩ :=
    option_parsing_semantics ["5", "keylength", "zz"] "seed"
  refine ⟨hs 9 (by decide), hd (Or.inr (Or.inl (by decide))),
    hk (Or.inr (Or.inr (by decide))), by decide⟩

/-! ### Success-response shape lemmas -/

/-- A successful `putManyObjectsBatch` response is the `PutState:`
statistics message built from the parsed parameters. -/
theorem putManyRun_resp_ok (g : RandGen) (m s0 : Nat) (a : List String)
    (q : Int) (hq : parseCount a = some q)
    (hok : (putManyRun g m s0 a).resp.isOk = true) :
    (putManyRun g m s0 a).resp = .ok ("PutState:" ++
      statsJson "put" q m (parseCommonOpts a).keyLength
        (parseCommonOpts a).useBatchAPI (parseCommonOpts a).collection
        (parseCommonOpts a).seed ++ " " ++
      (if (parseCommonOpts a).verbose then
        putVerboseMsg (parseCommonOpts a)
          (genKVLoop g (parseCommonOpts a).keyLength.toNat
            (parseCommonOpts a).collection q.toNat
            (g.seedFn (parseCommonOpts a).seed)).1
      else "")) := by
  have hlen : ¬ a.length < 1 := by
    intro hl; rw [parseCount, if_pos hl] at hq; cases hq
  have hat : atoi (a.getD 0 "") = some q := by
    rw [parseCount, if_neg hlen] at hq; exact hq
  unfold putManyRun at hok ⊢
  rw [if_neg hlen] at hok ⊢
  simp only [hat] at hok ⊢
  split at hok
  · exact absurd hok Bool.false_ne_true
  · rename_i hcond
    rw [if_neg hcond]

/-- A successful `getManyObjectsBatch` response is the `GetState:`
statistics message built from the parsed parameters. -/
theorem getManyRun_resp_ok (g : RandGen) (ledger : String → String → String)
    (m s0 : Nat) (a : List String)
    (q : Int) (hq : parseCount a = some q)
    (hok : (getManyRun g ledger m s0 a).resp.isOk = true) :
    (getManyRun g ledger m s0 a).resp = .ok ("GetState:" ++
      statsJson "get" q m (parseCommonOpts a).keyLength
        (parseCommonOpts a).useBatchAPI (parseCommonOpts a).collection
        (parseCommonOpts a).seed ++ " " ++
      (if (parseCommonOpts a).verbose then
        getVerboseMsg (parseCommonOpts a) (getManyRun g ledger m s0 a).values
      else "")) := by
  have hlen : ¬ a.length < 1 := by
    intro hl; rw [parseCount, if_pos hl] at hq; cases hq
  have hat : atoi (a.getD 0 "") = some q := by
    rw [parseCount, if_neg hlen] at hq; exact hq
  unfold getManyRun at hok ⊢
  rw [if_neg hlen] at hok ⊢
  simp only [hat] at hok ⊢
  split at hok
  · exact absurd hok Bool.false_ne_true
  · rename_i h1
    rw [if_neg h1]
    split at hok
    · exact absurd hok Bool.false_ne_true
    · rename_i h2
      rw [if_neg h2]

/-- A successful `delManyObjectsBatch` response is the `DelState:`
statistics message built from the parsed parameters. -/
theorem delManyRun_resp_ok (g : RandGen) (m s0 : Nat) (a : List String)
    (q : Int) (hq : parseCount a = some q)
    (hok : (delManyRun g m s0 a).resp.isOk = true) :
    (delManyRun g m s0 a).resp = .ok ("DelState:" ++
      statsJson "del" q m (parseCommonOpts a).keyLength
        (parseCommonOpts a).useBatchAPI (parseCommonOpts a).collection
        (parseCommonOpts a).seed ++ " " ++
      (if (parseCommonOpts a).verbose then
        delVerboseMsg (parseCommonOpts a)
          (genKeyLoop g (parseCommonOpts a).keyLength.toNat
            (parseCommonOpts a).collection q.toNat
            (g.seedFn (parseCommonOpts a).seed)).1
      else "")) := by
  have hlen : ¬ a.length < 1 := by
    intro hl; rw [parseCount, if_pos hl] at hq; cases hq
  have hat : atoi (a.getD 0 "") = some q := by
    rw [parseCount, if_neg hlen] at hq; exact hq
  unfold delManyRun at hok ⊢
  rw [if_neg hlen] at hok ⊢
  simp only [hat] at hok ⊢
  split at hok
  · exact absurd hok Bool.false_ne_true
  · rename_i hcond
    rw [if_neg hcond]

/-- C7: every successful response of `putManyObjectsBatch`,
`getManyObjectsBatch` and `delManyObjectsBatch` carries the JSON record
with fields method, entries, millis, keylen, batchapi, collection and
seed, where entries is the parsed count, batchapi is true exactly when
`nobatchapi` is absent from the arguments, and collection and seed are
the parsed option values (defaults `""` and `1` when absent). -/
theorem many_success_message_fields (g : RandGen)
    (ledger : String → String → String) (mp mg md s0p s0g s0d : Nat)
    (a : List String) (q : Int) (hq : parseCount a = some q) :
    ((putManyRun g mp s0p a).resp.isOk = true →
      ∃ suf, (putManyRun g mp s0p a).resp = .ok ("PutState:" ++
        statsJson "put" q mp (parseCommonOpts a).keyLength
          (decide (¬ "nobatchapi" ∈ a)) (parseCommonOpts a).collection
          (parseCommonOpts a).seed ++ " " ++ suf)) ∧
    ((getManyRun g ledger mg s0g a).resp.isOk = true →
      ∃ suf, (getManyRun g ledger mg s0g a).resp = .ok ("GetState:" ++
        statsJson "get" q mg (parseCommonOpts a).keyLength
          (decide (¬ "nobatchapi" ∈ a)) (parseCommonOpts a).collection
          (parseCommonOpts a).seed ++ " " ++ suf)) ∧
    ((delManyRun g md s0d a).resp.isOk = true →
      ∃ suf, (delManyRun g md s0d a).resp = .ok ("DelState:" ++
        statsJson "del" q md (parseCommonOpts a).keyLength
          (decide (¬ "nobatchapi" ∈ a)) (parseCommonOpts a).collection
          (parseCommonOpts a).seed ++ " " ++ suf)) := by
  refine
    ⟨fun hok => ⟨(if (parseCommonOpts a).verbose then
        putVerboseMsg (parseCommonOpts a)
          (genKVLoop g (parseCommonOpts a).keyLength.toNat
            (parseCommonOpts a).collection q.toNat
            (g.seedFn (parseCommonOpts a).seed)).1
      else ""), ?_⟩,
    fun hok => ⟨(if (parseCommonOpts a).verbose then
        getVerboseMsg (parseCommonOpts a) (getManyRun g ledger mg s0g a).values
      else ""), ?_⟩,
    fun hok => ⟨(if (parseCommonOpts a).verbose then
        delVerboseMsg (parseCommonOpts a)
          (genKeyLoop g (parseCommonOpts a).keyLength.toNat
            (parseCommonOpts a).collection q.toNat
            (g.seedFn (parseCommonOpts a).seed)).1
      else ""), ?_⟩⟩
  · rw [putManyRun_resp_ok g mp s0p a q hq hok, useBatch_eq_not_mem]
  · rw [getManyRun_resp_ok g ledger mg s0g a q hq hok, useBatch_eq_not_mem]
  · rw [delManyRun_resp_ok g md s0d a q hq hok, useBatch_eq_not_mem]

/-- Witness for C7 at concrete arguments. -/
theorem many_success_message_fields_witness :
    (∃ suf, (putManyRun exG 0 0 ["1"]).resp = .ok ("PutState:" ++
      statsJson "put" 1 0 (parseCommonOpts ["1"]).keyLength
        (decide (¬ "nobatchapi" ∈ ["1"])) (parseCommonOpts ["1"]).collection
        (parseCommonOpts ["1"]).seed ++ " " ++ suf)) ∧
    (∃ suf, (getManyRun exG (fun _ _ => "") 0 0 ["1"]).resp = .ok ("GetState:" ++
      statsJson "get" 1 0 (parseCommonOpts ["1"]).keyLength
        (decide (¬ "nobatchapi" ∈ ["1"])) (parseCommonOpts ["1"]).collection
        (parseCommonOpts ["1"]).seed ++ " " ++ suf)) ∧
    (∃ suf, (delManyRun exG 0 0 ["1"]).resp = .ok ("DelState:" ++
      statsJson "del" 1 0 (parseCommonOpts ["1"]).keyLength
        (decide (¬ "nobatchapi" ∈ ["1"])) (parseCommonOpts ["1"]).collection
        (parseCommonOpts ["1"]).seed ++ " " ++ suf)) := by
  obtain ⟨h1, h2, h3⟩ := many_success_message_fields exG (fun _ _ => "")
    0 0 0 0 0 0 ["1"] 1 (by decide)
  exact ⟨h1 (by decide), h2 (by decide), h3 (by decide)⟩

/-! ### Rejection lemmas: failed argument validation issues no stub call -/

theorem putManyRun_reject (g : RandGen) (m s0 : Nat) (args : List String)
    (h : atoi (args.getD 0 "") = none) :
    (putManyRun g m s0 args).ops = [] ∧
    (putManyRun g m s0 args).resp.isOk = false := by
  unfold putManyRun
  by_cases hl : args.length < 1
  · rw [if_pos hl]; exact ⟨rfl, rfl⟩
  · rw [if_neg hl]
    simp only [h]
    exact ⟨rfl, rfl⟩

theorem getManyRun_reject (g : RandGen) (ledger : String → String → String)
    (m s0 : Nat) (args : List String)
    (h : atoi (args.getD 0 "") = none) :
    (getManyRun g ledger m s0 args).ops = [] ∧
    (getManyRun g ledger m s0 args).resp.isOk = false := by
  unfold getManyRun
  by_cases hl : args.length < 1
  · rw [if_pos hl]; exact ⟨rfl, rfl⟩
  · rw [if_neg hl]
    simp only [h]
    exact ⟨rfl, rfl⟩

theorem delManyRun_reject (g : RandGen) (m s0 : Nat) (args : List String)
    (h : atoi (args.getD 0 "") = none) :
    (delManyRun g m s0 args).ops = [] ∧
    (delManyRun g m s0 args).resp.isOk = false := by
  unfold delManyRun
  by_cases hl : args.length < 1
  · rw [if_pos hl]; exact ⟨rfl, rfl⟩
  · rw [if_neg hl]
    simp only [h]
    exact ⟨rfl, rfl⟩

theorem putRangeRun_reject (m s0 : Nat) (args : List String)
    (h : atoi (args.getD 0 "") = none) :
    (putRangeRun m s0 args).ops = [] ∧
    (putRangeRun m s0 args).resp.isOk = false := by
  unfold putRangeRun
  by_cases hl : args.length < 1
  · rw [if_pos hl]; exact ⟨rfl, rfl⟩
  · rw [if_neg hl]
    simp only [h]
    exact ⟨rfl, rfl⟩

theorem getRangeRun_reject (lookup : String → String → String)
    (db : List (String × String)) (m s0 : Nat) (args : List String)
    (h : atoi (args.getD 0 "") = none) :
    (getRangeRun lookup db m s0 args).ops = [] ∧
    (getRangeRun lookup db m s0 args).resp.isOk = false := by
  unfold getRangeRun
  by_cases hl : args.length < 1
  · rw [if_pos hl]; exact ⟨rfl, rfl⟩
  · rw [if_neg hl]
    simp only [h]
    exact ⟨rfl, rfl⟩

theorem putObjectsRun_reject (s0 : Nat) (args : List String)
    (h : args.length < 2 ∨ args.length % 2 ≠ 0) :
    (putObjectsRun s0 args).ops = [] ∧
    (putObjectsRun s0 args).resp.isOk = false := by
  unfold putObjectsRun
  by_cases hl : args.length < 2
  · rw [if_pos hl]; exact ⟨rfl, rfl⟩
  · rw [if_neg hl]
    have hodd : args.length % 2 ≠ 0 := by
      rcases h with h | h
      · exact absurd h hl
      · exact h
    rw [if_pos hodd]
    exact ⟨rfl, rfl⟩

/-- C9: argument validation is atomic.  For every function dispatched by
`Invoke`: an empty argument list, a first argument that `strconv.Atoi`
rejects (for the five counting operations), fewer than two or an odd
number of arguments (for `putObjectsBatch`), or an unknown function name
all yield an error response with no state-database call issued, leaving
the ledger unchanged. -/
theorem invoke_argument_validation (g : RandGen)
    (ledger : String → String → String) (db : List (String × String))
    (m s0 : Nat) (fn : String) (args : List String) :
    (args = [] →
      (invokeRun g ledger db m s0 fn args).ops = [] ∧
      (invokeRun g ledger db m s0 fn args).resp.isOk = false) ∧
    ((fn = "getManyObjectsBatch" ∨ fn = "putManyObjectsBatch" ∨
      fn = "delManyObjectsBatch" ∨ fn = "putRange" ∨ fn = "getRange") →
      atoi (args.getD 0 "") = none →
      (invokeRun g ledger db m s0 fn args).ops = [] ∧
      (invokeRun g ledger db m s0 fn args).resp.isOk = false) ∧
    (fn = "putObjectsBatch" → (args.length < 2 ∨ args.length % 2 ≠ 0) →
      (invokeRun g ledger db m s0 fn args).ops = [] ∧
      (invokeRun g ledger db m s0 fn args).resp.isOk = false) ∧
    ((fn ≠ "getObjectsBatch" ∧ fn ≠ "getManyObjectsBatch" ∧
      fn ≠ "putObjectsBatch" ∧ fn ≠ "putManyObjectsBatch" ∧
      fn ≠ "delManyObjectsBatch" ∧ fn ≠ "putRange" ∧ fn ≠ "getRange") →
      (invokeRun g ledger db m s0 fn args).ops = [] ∧
      (invokeRun g ledger db m s0 fn args).resp.isOk = false) := by
  refine ⟨?_, ?_, ?_, ?_⟩
  · intro h
    subst h
    unfold invokeRun
    repeat' split
    all_goals exact ⟨rfl, rfl⟩
  · intro hfn hat
    rcases hfn with h | h | h | h | h
    · subst h
      have hd : invokeRun g ledger db m s0 "getManyObjectsBatch" args =
        getManyRun g ledger m s0 args := rfl
      rw [hd]
      exact getManyRun_reject g ledger m s0 args hat
    · subst h
      have hd : invokeRun g ledger db m s0 "putManyObjectsBatch" args =
        putManyRun g m s0 args := rfl
      rw [hd]
      exact putManyRun_reject g m s0 args hat
    · subst h
      have hd : invokeRun g ledger db m s0 "delManyObjectsBatch" args =
        delManyRun g m s0 args := rfl
      rw [hd]
      exact delManyRun_reject g m s0 args hat
    · subst h
      have hd : invokeRun g ledger db m s0 "putRange" args =
        putRangeRun m s0 args := rfl
      rw [hd]
      exact putRangeRun_reject m s0 args hat
    · subst h
      have hd : invokeRun g ledger db m s0 "getRange" args =
        getRangeRun ledger db m s0 args := rfl
      rw [hd]
      exact getRangeRun_reject ledger db m s0 args hat
  · intro h hpar
    subst h
    have hd : invokeRun g ledger db m s0 "putObjectsBatch" args =
      putObjectsRun s0 args := rfl
    rw [hd]
    exact putObjectsRun_reject s0 args hpar
  · intro h
    obtain ⟨h1, h2, h3, h4, h5, h6, h7⟩ := h
    unfold invokeRun
    rw [if_neg h1, if_neg h2, if_neg h3, if_neg h4, if_neg h5, if_neg h6,
      if_neg h7]
    exact ⟨rfl, rfl⟩

/-- Witness for C9 at concrete inputs: a non-integer count argument and
an unknown function name. -/
theorem invoke_argument_validation_witness :
    ((invokeRun exG (fun _ _ => "") [] 0 0 "putManyObjectsBatch" ["x"]).ops = [] ∧
      (invokeRun exG (fun _ _ => "") [] 0 0 "putManyObjectsBatch" ["x"]).resp.isOk
        = false) ∧
    ((invokeRun exG (fun _ _ => "") [] 0 0 "bogus" ["1"]).ops = [] ∧
      (invokeRun exG (fun _ _ => "") [] 0 0 "bogus" ["1"]).resp.isOk = false) := by
  obtain ⟨-, h2, -, -⟩ := invoke_argument_validation exG (fun _ _ => "") [] 0 0
    "putManyObjectsBatch" ["x"]
  obtain ⟨-, -, -, h4⟩ := invoke_argument_validation exG (fun _ _ => "") [] 0 0
    "bogus" ["1"]
  exact ⟨h2 (Or.inr (Or.inl rfl)) (by decide),
    h4 ⟨by decide, by decide, by decide, by decide, by decide, by decide,
      by decide⟩⟩

/-! ### Lemmas on the pending-error flag and query results -/

theorem manyErrAfter_batch (o : CommonOpts) (e : Bool)
    (hb : o.useBatchAPI = true) : manyErrAfter o e = false := by
  unfold manyErrAfter
  rw [hb]
  rfl

theorem manyErrAfter_no_pending (o : CommonOpts) (e : Bool)
    (hp : o.errPending = false) : manyErrAfter o e = false := by
  unfold manyErrAfter
  by_cases hb : o.useBatchAPI = true
  · rw [if_pos hb]
  · rw [if_neg hb]
    by_cases he : e = true
    · rw [if_pos he, hp]
    · rw [if_neg he]

theorem manyErrAfter_empty (o : CommonOpts) (e : Bool)
    (h : manyErrAfter o e = true) : e = true := by
  unfold manyErrAfter at h
  by_cases hb : o.useBatchAPI = true
  · rw [if_pos hb] at h; cases h
  · rw [if_neg hb] at h
    by_cases he : e = true
    · exact he
    · rw [if_neg he] at h; cases h

theorem manyErrAfter_pending_empty (o : CommonOpts) (e : Bool)
    (hb : o.useBatchAPI = false) (hp : o.errPending = true) (he : e = true) :
    manyErrAfter o e = true := by
  unfold manyErrAfter
  rw [hb, he]
  simp [hp]

/-- The query result list is empty exactly when the requested key list
is. -/
theorem getManyValue_isEmpty (ledger : String → String → String)
    (o : CommonOpts) (keys : List StateKey) :
    (getManyValue ledger o keys).isEmpty = keys.isEmpty := by
  unfold getManyValue
  by_cases hb : o.useBatchAPI = true
  · rw [if_pos hb]; cases keys <;> rfl
  · rw [if_neg hb]
    by_cases hc : o.collection ≠ ""
    · rw [if_pos hc]; cases keys <;> rfl
    · rw [if_neg hc]; cases keys <;> rfl

/-- When the keys carry the collection parameter, the three branches of
the `value` construction coincide: one entry per key, in order, with the
key's collection and its ledger value. -/
theorem getManyValue_eq (ledger : String → String → String) (o : CommonOpts)
    (keys : List StateKey) (h : ∀ k ∈ keys, k.collection = o.collection) :
    getManyValue ledger o keys =
      keys.map (fun k => ⟨k.collection, k.key, ledger k.collection k.key⟩) := by
  unfold getManyValue
  by_cases hb : o.useBatchAPI = true
  · rw [if_pos hb]
  · rw [if_neg hb]
    by_cases hc : o.collection ≠ ""
    · rw [if_pos hc]
      exact List.map_congr_left fun k hk => by rw [h k hk]
    · rw [if_neg hc]
      push_neg at hc
      exact List.map_congr_left fun k hk => by rw [h k hk, hc]

/-- The full response case analysis of `getManyObjectsBatch` once the
count argument parsed. -/
theorem getManyRun_resp_cases (g : RandGen)
    (ledger : String → String → String) (m s0 : Nat) (a : List String)
    (q : Int) (hq : parseCount a = some q) :
    (getManyRun g ledger m s0 a).resp =
      (if manyErrAfter (parseCommonOpts a)
          ((genKeyLoop g (parseCommonOpts a).keyLength.toNat
            (parseCommonOpts a).collection q.toNat
            (g.seedFn (parseCommonOpts a).seed)).1).isEmpty then
        Except.error (failedGetMsg a (parseCommonOpts a).errMsg)
      else if (getManyValue ledger (parseCommonOpts a)
          ((genKeyLoop g (parseCommonOpts a).keyLength.toNat
            (parseCommonOpts a).collection q.toNat
            (g.seedFn (parseCommonOpts a).seed)).1)).isEmpty then
        Except.error (anfMsg a)
      else Except.ok ("GetState:" ++
        statsJson "get" q m (parseCommonOpts a).keyLength
          (parseCommonOpts a).useBatchAPI (parseCommonOpts a).collection
          (parseCommonOpts a).seed ++ " " ++
        (if (parseCommonOpts a).verbose then
          getVerboseMsg (parseCommonOpts a)
            (getManyValue ledger (parseCommonOpts a)
              ((genKeyLoop g (parseCommonOpts a).keyLength.toNat
                (parseCommonOpts a).collection q.toNat
                (g.seedFn (parseCommonOpts a).seed)).1))
        else ""))) := by
  have hlen : ¬ a.length < 1 := by
    intro hl; rw [parseCount, if_pos hl] at hq; cases hq
  have hat : atoi (a.getD 0 "") = some q := by
    rw [parseCount, if_neg hlen] at hq; exact hq
  unfold getManyRun
  rw [if_neg hlen]
  simp only [hat]
  by_cases hE : manyErrAfter (parseCommonOpts a)
      ((genKeyLoop g (parseCommonOpts a).keyLength.toNat
        (parseCommonOpts a).collection q.toNat
        (g.seedFn (parseCommonOpts a).seed)).1).isEmpty = true
  · rw [if_pos hE, if_pos hE]
  · rw [if_neg hE, if_neg hE]
    by_cases hV : (getManyValue ledger (parseCommonOpts a)
        ((genKeyLoop g (parseCommonOpts a).keyLength.toNat
          (parseCommonOpts a).collection q.toNat
          (g.seedFn (parseCommonOpts a).seed)).1)).isEmpty = true
    · rw [if_pos hV, if_pos hV]
    · rw [if_neg hV, if_neg hV]

/-- The query results recorded by `getManyObjectsBatch`. -/
theorem getManyRun_values (g : RandGen) (ledger : String → String → String)
    (m s0 : Nat) (a : List String) :
    (getManyRun g ledger m s0 a).values =
      match parseCount a with
      | none => []
      | some q =>
        getManyValue ledger (parseCommonOpts a)
          ((genKeyLoop g (parseCommonOpts a).keyLength.toNat
            (parseCommonOpts a).collection q.toNat
            (g.seedFn (parseCommonOpts a).seed)).1) := by
  unfold getManyRun parseCount
  by_cases h : a.length < 1
  · simp [h, errResp]
  · simp only [h, if_false]
    cases hA : atoi (a.getD 0 "") with
    | none => simp [errResp]
    | some q =>
      simp only []
      repeat' split
      all_goals rfl

theorem getManyRun_parse_fail (g : RandGen)
    (ledger : String → String → String) (m s0 : Nat) (a : List String)
    (h : parseCount a = none) :
    (getManyRun g ledger m s0 a).ops = [] ∧
    (getManyRun g ledger m s0 a).resp.isOk = false := by
  unfold parseCount at h
  by_cases hl : a.length < 1
  · unfold getManyRun
    rw [if_pos hl]
    exact ⟨rfl, rfl⟩
  · rw [if_neg hl] at h
    exact getManyRun_reject g ledger m s0 a h

/-- Two `ok` responses have the same `isOk`, whatever the payloads. -/
theorem ok_isOk_eq (x y : String) :
    (Except.ok x : Except String String).isOk =
    (Except.ok y : Except String String).isOk := rfl

/-- C5 counterexample: with count `0`, a seed value that fails to parse
and `nobatchapi`, the non-batch path's stale option-parse error makes the
operation fail with the generic `Failed to get asset` error although the
result list is empty, not with `Assets not found` as the claim states. -/
theorem getMany_path_equiv_counterexample :
    (getManyRun exG (fun _ _ => "") 0 0 ["0", "seed", "x", "nobatchapi"]).values
      = [] ∧
    (getManyRun exG (fun _ _ => "") 0 0 ["0", "seed", "x", "nobatchapi"]).resp ≠
      .error (anfMsg ["0", "seed", "x", "nobatchapi"]) ∧
    (getManyRun exG (fun _ _ => "") 0 0
      ["0", "seed", "x", "nobatchapi"]).resp.isOk = false := by
  decide

/-- C5 (amended): for two invocations of `getManyObjectsBatch` whose
parsed count, seed, keylength and collection agree, one on the batch path
and one on the non-batch path, and under the assumed `GetStateBatch`
semantics (one entry per requested key in request order): both paths
return the same list of key/value results and the same success/error
outcome; the batch path fails with `Assets not found` exactly when the
result list is empty, and so does the non-batch path provided no
option-parse error is pending; with a pending option-parse error and an
empty result list, the non-batch path instead fails with the generic
`Failed to get asset` error. -/
theorem getMany_path_equiv (g : RandGen) (ledger : String → String → String)
    (m m' s0 s0' : Nat) (a a' : List String)
    (hc : parseCount a = parseCount a')
    (hs : (parseCommonOpts a).seed = (parseCommonOpts a').seed)
    (hk : (parseCommonOpts a).keyLength = (parseCommonOpts a').keyLength)
    (hcol : (parseCommonOpts a).collection = (parseCommonOpts a').collection)
    (hb : (parseCommonOpts a).useBatchAPI = true)
    (hb' : (parseCommonOpts a').useBatchAPI = false) :
    (getManyRun g ledger m s0 a).values =
      (getManyRun g ledger m' s0' a').values ∧
    (getManyRun g ledger m s0 a).resp.isOk =
      (getManyRun g ledger m' s0' a').resp.isOk ∧
    (∀ q : Int, parseCount a = some q →
      (((getManyRun g ledger m s0 a).resp = .error (anfMsg a)) ↔
        (getManyRun g ledger m s0 a).values = []) ∧
      ((parseCommonOpts a').errPending = false →
        (((getManyRun g ledger m' s0' a').resp = .error (anfMsg a')) ↔
          (getManyRun g ledger m' s0' a').values = [])) ∧
      ((parseCommonOpts a').errPending = true →
        (getManyRun g ledger m' s0' a').values = [] →
        (getManyRun g ledger m' s0' a').resp =
          .error (failedGetMsg a' (parseCommonOpts a').errMsg))) := by
  cases hpc : parseCount a with
  | none =>
    have hpc2 : parseCount a' = none := by rw [← hc]; exact hpc
    refine ⟨?_, ?_, ?_⟩
    · rw [getManyRun_values, getManyRun_values, hpc, hpc2]
    · rw [(getManyRun_parse_fail g ledger m s0 a hpc).2,
        (getManyRun_parse_fail g ledger m' s0' a' hpc2).2]
    · intro q hq
      exact Option.noConfusion hq
  | some q =>
    have hpc2 : parseCount a' = some q := by rw [← hc]; exact hpc
    have hKeys : (genKeyLoop g (parseCommonOpts a).keyLength.toNat
        (parseCommonOpts a).collection q.toNat
        (g.seedFn (parseCommonOpts a).seed)).1 =
      (genKeyLoop g (parseCommonOpts a').keyLength.toNat
        (parseCommonOpts a').collection q.toNat
        (g.seedFn (parseCommonOpts a').seed)).1 := by
      rw [hs, hk, hcol]
    have hVals : (getManyRun g ledger m s0 a).values =
        (getManyRun g ledger m' s0' a').values := by
      rw [getManyRun_values, getManyRun_values, hpc, hpc2]
      simp only []
      rw [getManyValue_eq ledger (parseCommonOpts a) _
          (genKeyLoop_collection g _ _ _ _),
        getManyValue_eq ledger (parseCommonOpts a') _
          (genKeyLoop_collection g _ _ _ _),
        hKeys]
    have hVE : (getManyValue ledger (parseCommonOpts a)
        ((genKeyLoop g (parseCommonOpts a).keyLength.toNat
          (parseCommonOpts a).collection q.toNat
          (g.seedFn (parseCommonOpts a).seed)).1)).isEmpty =
      (getManyValue ledger (parseCommonOpts a')
        ((genKeyLoop g (parseCommonOpts a').keyLength.toNat
          (parseCommonOpts a').collection q.toNat
          (g.seedFn (parseCommonOpts a').seed)).1)).isEmpty := by
      rw [getManyValue_isEmpty, getManyValue_isEmpty, hKeys]
    refine ⟨hVals, ?_, ?_⟩
    · rw [getManyRun_resp_cases g ledger m s0 a q hpc,
        getManyRun_resp_cases g ledger m' s0' a' q hpc2,
        manyErrAfter_batch _ _ hb, if_neg Bool.false_ne_true]
      by_cases hE' : manyErrAfter (parseCommonOpts a')
          ((genKeyLoop g (parseCommonOpts a').keyLength.toNat
            (parseCommonOpts a').collection q.toNat
            (g.seedFn (parseCommonOpts a').seed)).1).isEmpty = true
      · rw [if_pos hE']
        have hkE := manyErrAfter_empty _ _ hE'
        have hVempty : (getManyValue ledger (parseCommonOpts a)
            ((genKeyLoop g (parseCommonOpts a).keyLength.toNat
              (parseCommonOpts a).collection q.toNat
              (g.seedFn (parseCommonOpts a).seed)).1)).isEmpty = true := by
          rw [getManyValue_isEmpty, hKeys]
          exact hkE
        rw [if_pos hVempty]
        rfl
      · rw [if_neg hE']
        by_cases hV : (getManyValue ledger (parseCommonOpts a)
            ((genKeyLoop g (parseCommonOpts a).keyLength.toNat
              (parseCommonOpts a).collection q.toNat
              (g.seedFn (parseCommonOpts a).seed)).1)).isEmpty = true
        · have hV2 : (getManyValue ledger (parseCommonOpts a')
              ((genKeyLoop g (parseCommonOpts a').keyLength.toNat
                (parseCommonOpts a').collection q.toNat
                (g.seedFn (parseCommonOpts a').seed)).1)).isEmpty = true := by
            rw [← hVE]; exact hV
          rw [if_pos hV, if_pos hV2]
          rfl
        · have hV2 : ¬ (getManyValue ledger (parseCommonOpts a')
              ((genKeyLoop g (parseCommonOpts a').keyLength.toNat
                (parseCommonOpts a').collection q.toNat
                (g.seedFn (parseCommonOpts a').seed)).1)).isEmpty = true := by
            rw [← hVE]; exact hV
          rw [if_neg hV, if_neg hV2]
          exact ok_isOk_eq _ _
    · intro _q _hq
      refine ⟨?_, ?_, ?_⟩
      · rw [getManyRun_resp_cases g ledger m s0 a q hpc, getManyRun_values,
          hpc, manyErrAfter_batch _ _ hb, if_neg Bool.false_ne_true]
        simp only []
        by_cases hV : (getManyValue ledger (parseCommonOpts a)
            ((genKeyLoop g (parseCommonOpts a).keyLength.toNat
              (parseCommonOpts a).collection q.toNat
              (g.seedFn (parseCommonOpts a).seed)).1)).isEmpty = true
        · rw [if_pos hV]
          exact ⟨fun _ => List.isEmpty_iff.mp hV, fun _ => rfl⟩
        · rw [if_neg hV]
          constructor
          · intro h
            exact Except.noConfusion h
          · intro h
            exact absurd (List.isEmpty_iff.mpr h) hV
      · intro hp
        rw [getManyRun_resp_cases g ledger m' s0' a' q hpc2, getManyRun_values,
          hpc2, manyErrAfter_no_pending _ _ hp, if_neg Bool.false_ne_true]
        simp only []
        by_cases hV : (getManyValue ledger (parseCommonOpts a')
            ((genKeyLoop g (parseCommonOpts a').keyLength.toNat
              (parseCommonOpts a').collection q.toNat
              (g.seedFn (parseCommonOpts a').seed)).1)).isEmpty = true
        · rw [if_pos hV]
          exact ⟨fun _ => List.isEmpty_iff.mp hV, fun _ => rfl⟩
        · rw [if_neg hV]
          constructor
          · intro h
            exact Except.noConfusion h
          · intro h
            exact absurd (List.isEmpty_iff.mpr h) hV
      · intro hp hv
        rw [getManyRun_values, hpc2] at hv
        have hkE : ((genKeyLoop g (parseCommonOpts a').keyLength.toNat
            (parseCommonOpts a').collection q.toNat
            (g.seedFn (parseCommonOpts a').seed)).1).isEmpty = true := by
          rw [← getManyValue_isEmpty ledger (parseCommonOpts a')]
          exact List.isEmpty_iff.mpr hv
        rw [getManyRun_resp_cases g ledger m' s0' a' q hpc2,
          if_pos (manyErrAfter_pending_empty _ _ hb' hp hkE)]

/-- Witness for the amended C5 at concrete arguments. -/
theorem getMany_path_equiv_witness :
    (getManyRun exG (fun _ _ => "v") 0 0 ["1"]).values =
      (getManyRun exG (fun _ _ => "v") 1 7 ["1", "nobatchapi"]).values ∧
    (getManyRun exG (fun _ _ => "v") 0 0 ["1"]).resp.isOk =
      (getManyRun exG (fun _ _ => "v") 1 7 ["1", "nobatchapi"]).resp.isOk ∧
    ((((getManyRun exG (fun _ _ => "v") 0 0 ["1"]).resp =
        .error (anfMsg ["1"])) ↔
      (getManyRun exG (fun _ _ => "v") 0 0 ["1"]).values = []) ∧
    ((parseCommonOpts ["1", "nobatchapi"]).errPending = false →
      (((getManyRun exG (fun _ _ => "v") 1 7 ["1", "nobatchapi"]).resp =
          .error (anfMsg ["1", "nobatchapi"])) ↔
        (getManyRun exG (fun _ _ => "v") 1 7 ["1", "nobatchapi"]).values = [])) ∧
    ((parseCommonOpts ["1", "nobatchapi"]).errPending = true →
      (getManyRun exG (fun _ _ => "v") 1 7 ["1", "nobatchapi"]).values = [] →
      (getManyRun exG (fun _ _ => "v") 1 7 ["1", "nobatchapi"]).resp =
        .error (failedGetMsg ["1", "nobatchapi"]
          (parseCommonOpts ["1", "nobatchapi"]).errMsg))) := by
  obtain ⟨h1, h2, h3⟩ := getMany_path_equiv exG (fun _ _ => "v") 0 1 0 7
    ["1"] ["1", "nobatchapi"] (by decide) (by decide) (by decide) (by decide)
    (by decide) (by decide)
  exact ⟨h1, h2, h3 1 (by decide)⟩

/-! ### Decimal digit lemmas -/

theorem decDigitsCore_fuel (n : Nat) : ∀ f1 f2, n < f1 → n < f2 →
    decDigitsCore f1 n = decDigitsCore f2 n := by
  induction n using Nat.strong_induction_on with
  | _ n ih =>
    intro f1 f2 h1 h2
    cases f1 with
    | zero => omega
    | succ fa =>
      cases f2 with
      | zero => omega
      | succ fb =>
        simp only [decDigitsCore]
        by_cases h10 : n < 10
        · simp [h10]
        · simp only [h10, if_false]
          have hlt : n / 10 < n := by omega
          rw [ih (n / 10) hlt fa fb (by omega) (by omega)]

theorem decDigits_lt10 (n : Nat) (h : n < 10) : decDigits n = [n] := by
  unfold decDigits decDigitsCore
  simp [h]

theorem decDigits_ge10 (n : Nat) (h : 10 ≤ n) :
    decDigits n = decDigits (n / 10) ++ [n % 10] := by
  unfold decDigits
  have h1 : decDigitsCore (n + 1) n = decDigitsCore n (n / 10) ++ [n % 10] := by
    simp only [decDigitsCore]
    simp [Nat.not_lt.mpr h]
  rw [h1, decDigitsCore_fuel (n / 10) n (n / 10 + 1) (by omega) (by omega)]

theorem decDigits_ne_nil (n : Nat) : decDigits n ≠ [] := by
  by_cases h : n < 10
  · rw [decDigits_lt10 n h]; simp
  · rw [decDigits_ge10 n (by omega)]; simp

theorem decDigits_lt_ten (n : Nat) : ∀ d ∈ decDigits n, d < 10 := by
  induction n using Nat.strong_induction_on with
  | _ n ih =>
    by_cases h : n < 10
    · rw [decDigits_lt10 n h]
      intro d hd
      simp at hd
      omega
    · rw [decDigits_ge10 n (by omega)]
      intro d hd
      rw [List.mem_append] at hd
      rcases hd with hd | hd
      · exact ih (n / 10) (by omega) d hd
      · simp at hd
        omega

/-- The numeric value of a most-significant-first digit list. -/
def digitsVal (l : List Nat) : Nat := l.foldl (fun acc d => 10 * acc + d) 0

theorem foldl_digits_append (l : List Nat) (d acc : Nat) :
    (l ++ [d]).foldl (fun acc d => 10 * acc + d) acc =
      10 * l.foldl (fun acc d => 10 * acc + d) acc + d := by
  rw [List.foldl_append]
  rfl

theorem digitsVal_decDigits (n : Nat) : digitsVal (decDigits n) = n := by
  induction n using Nat.strong_induction_on with
  | _ n ih =>
    by_cases h : n < 10
    · rw [decDigits_lt10 n h]
      show 10 * 0 + n = n
      omega
    · rw [decDigits_ge10 n (by omega)]
      unfold digitsVal
      rw [foldl_digits_append]
      have hih := ih (n / 10) (by omega)
      unfold digitsVal at hih
      rw [hih]
      omega

theorem digitsVal_replicate_zero (k : Nat) (l : List Nat) :
    digitsVal (List.replicate k 0 ++ l) = digitsVal l := by
  induction k with
  | zero => rfl
  | succ k ih =>
    rw [List.replicate_succ, List.cons_append]
    show digitsVal (List.replicate k 0 ++ l) = digitsVal l
    exact ih

theorem digitChar_toNat (d : Nat) (h : d < 10) : (digitChar d).toNat = 48 + d := by
  interval_cases d <;> rfl

theorem digitChar_zero : digitChar 0 = '0' := rfl

theorem digitVal_digitChar (d : Nat) (h : d < 10) :
    digitVal (digitChar d) = some d := by
  interval_cases d <;> rfl

theorem parseDigitsAux_map (l : List Nat) : ∀ acc, (∀ d ∈ l, d < 10) →
    parseDigitsAux (l.map digitChar) acc =
      some (l.foldl (fun acc d => 10 * acc + d) acc) := by
  induction l with
  | nil => intro acc _; rfl
  | cons d ds ih =>
    intro acc hb
    simp only [List.map_cons, parseDigitsAux,
      digitVal_digitChar d (hb d (by simp)), List.foldl_cons]
    exact ih _ (fun x hx => hb x (by simp [hx]))

theorem parseDigits_digit_list (L : List Nat) (hne : L ≠ [])
    (hb : ∀ d ∈ L, d < 10) :
    parseDigits (L.map digitChar) = some (digitsVal L) := by
  cases L with
  | nil => exact absurd rfl hne
  | cons d ds =>
    show parseDigitsAux ((d :: ds).map digitChar) 0 = some (digitsVal (d :: ds))
    rw [parseDigitsAux_map (d :: ds) 0 hb]
    rfl

theorem parseDigits_pad (k m : Nat) :
    parseDigits (leftPadChars '0' k ((decDigits m).map digitChar)) = some m := by
  have hmap : leftPadChars '0' k ((decDigits m).map digitChar) =
      (List.replicate (k - ((decDigits m).map digitChar).length) 0 ++
        decDigits m).map digitChar := by
    unfold leftPadChars
    rw [List.map_append, List.map_replicate, digitChar_zero]
  have hne : List.replicate (k - ((decDigits m).map digitChar).length) 0 ++
      decDigits m ≠ [] := by
    intro h
    exact decDigits_ne_nil m (List.append_eq_nil.mp h).2
  have hb : ∀ d ∈ List.replicate (k - ((decDigits m).map digitChar).length) 0 ++
      decDigits m, d < 10 := by
    intro d hd
    rw [List.mem_append] at hd
    rcases hd with hd | hd
    · rw [List.eq_of_mem_replicate hd]
      omega
    · exact decDigits_lt_ten m d hd
  rw [hmap, parseDigits_digit_list _ hne hb, digitsVal_replicate_zero,
    digitsVal_decDigits]

/-- Head shape of a non-empty padded digit rendering. -/
theorem pad_digits_cons (k m : Nat) :
    ∃ d ds, d < 10 ∧
      List.replicate (k - ((decDigits m).map digitChar).length) 0 ++
        decDigits m = d :: ds := by
  cases hL : List.replicate (k - ((decDigits m).map digitChar).length) 0 ++
      decDigits m with
  | nil => exact absurd (List.append_eq_nil.mp hL).2 (decDigits_ne_nil m)
  | cons d ds =>
    refine ⟨d, ds, ?_, rfl⟩
    have hd : d ∈ List.replicate (k - ((decDigits m).map digitChar).length) 0 ++
        decDigits m := by
      rw [hL]
      simp
    rw [List.mem_append] at hd
    rcases hd with hd | hd
    · rw [List.eq_of_mem_replicate hd]
      omega
    · exact decDigits_lt_ten m d hd

theorem digitChar_ne_plus (d : Nat) (h : d < 10) : digitChar d ≠ '+' := by
  intro hc
  have h2 := congrArg Char.toNat hc
  rw [digitChar_toNat d h, show ('+').toNat = 43 from rfl] at h2
  omega

theorem digitChar_ne_minus (d : Nat) (h : d < 10) : digitChar d ≠ '-' := by
  intro hc
  have h2 := congrArg Char.toNat hc
  rw [digitChar_toNat d h, show ('-').toNat = 45 from rfl] at h2
  omega

/-- `strconv.Atoi` inverts the `%05d` rendering, for every integer. -/
theorem atoi_fmt05 (n : Int) : atoi (fmt05 n) = some n := by
  unfold fmt05
  by_cases hneg : n < 0
  · rw [if_pos hneg]
    have hdata : ("-" ++ String.mk (leftPadChars '0' 4
        ((decDigits n.natAbs).map digitChar))).data =
        '-' :: leftPadChars '0' 4 ((decDigits n.natAbs).map digitChar) := by
      rw [String.data_append "-" _]
      rfl
    unfold atoi
    rw [hdata]
    simp only []
    rw [if_neg (by decide)]
    rw [if_pos (by trivial), parseDigits_pad 4 n.natAbs]
    show some (-(n.natAbs : Int)) = some n
    have h2 : -(n.natAbs : Int) = n := by omega
    rw [h2]
  · rw [if_neg hneg]
    obtain ⟨d, ds, hd, hL⟩ := pad_digits_cons 5 n.toNat
    have hpad : leftPadChars '0' 5 ((decDigits n.toNat).map digitChar) =
        digitChar d :: ds.map digitChar := by
      unfold leftPadChars
      calc List.replicate (5 - ((decDigits n.toNat).map digitChar).length) '0' ++
            (decDigits n.toNat).map digitChar
          = (List.replicate (5 - ((decDigits n.toNat).map digitChar).length) 0 ++
              decDigits n.toNat).map digitChar := by
            rw [List.map_append, List.map_replicate, digitChar_zero]
        _ = (d :: ds).map digitChar := by rw [hL]
        _ = digitChar d :: ds.map digitChar := rfl
    unfold atoi
    rw [show (String.mk (leftPadChars '0' 5
        ((decDigits n.toNat).map digitChar))).data =
        leftPadChars '0' 5 ((decDigits n.toNat).map digitChar) from rfl]
    rw [hpad]
    simp only []
    rw [if_neg (digitChar_ne_plus d hd), if_neg (digitChar_ne_minus d hd)]
    rw [show (digitChar d :: ds.map digitChar) = ((d :: ds).map digitChar)
      from rfl]
    have hb : ∀ x ∈ d :: ds, x < 10 := by
      intro x hx
      have hx2 : x ∈ List.replicate
          (5 - ((decDigits n.toNat).map digitChar).length) 0 ++
          decDigits n.toNat := by
        rw [hL]
        exact hx
      rw [List.mem_append] at hx2
      rcases hx2 with h | h
      · rw [List.eq_of_mem_replicate h]
        omega
      · exact decDigits_lt_ten n.toNat x h
    rw [parseDigits_digit_list (d :: ds) (by simp) hb]
    have hval : digitsVal (d :: ds) = n.toNat := by
      rw [← hL, digitsVal_replicate_zero, digitsVal_decDigits]
    show some (Int.ofNat (digitsVal (d :: ds))) = some n
    rw [hval]
    have h2 : (Int.ofNat n.toNat) = n := by
      rw [Int.ofNat_eq_coe]
      omega
    rw [h2]

/-- C8 counterexample: `putRange` with parsed count `-1` succeeds, passes
`0` (not `-1`) pairs to `PutStateBatch`, and reports `entries = 0`, which
is not one more than the `0` pairs written. -/
theorem putRange_writes_counterexample :
    (putRangeRun 0 0 ["-1"]).resp.isOk = true ∧
    (putRangeRun 0 0 ["-1"]).kvGen.length = 0 ∧
    parseCount ["-1"] = some (-1) ∧
    ¬ ((0 : Int) = -1) ∧
    (putRangeRun 0 0 ["-1"]).resp = .ok (putRangeMsg 0 0) ∧
    ¬ ((0 : Nat) = 0 + 1) := by
  decide

/-- C8 (amended): for every successful invocation of `putRange` with
parsed count `q`, exactly `max q 0` key/value pairs are passed to a
single `PutStateBatch`, with keys `OBJ%05d(i)` and JSON values embedding
`i` for `i` in `[0, q)`, while the `entries` field of the returned
success message is `q + 1` (one more than the number of pairs written
whenever `q ≥ 0`). -/
theorem putRange_writes (m s0 : Nat) (a : List String) (q : Int)
    (hq : parseCount a = some q) :
    (putRangeRun m s0 a).ops =
      [StubOp.putStateBatch (putRangeRun m s0 a).kvGen] ∧
    (putRangeRun m s0 a).kvGen =
      (intLoopRange 0 q).map (fun i => ⟨"", objKey i, rangeValJson i⟩) ∧
    (putRangeRun m s0 a).kvGen.length = q.toNat ∧
    (putRangeRun m s0 a).resp = .ok (putRangeMsg (q + 1) m) ∧
    (0 ≤ q → q + 1 = (q.toNat : Int) + 1) := by
  have hlen : ¬ a.length < 1 := by
    intro hl; rw [parseCount, if_pos hl] at hq; cases hq
  have hat : atoi (a.getD 0 "") = some q := by
    rw [parseCount, if_neg hlen] at hq; exact hq
  unfold putRangeRun
  rw [if_neg hlen]
  simp only [hat]
  refine ⟨by trivial, by trivial, ?_, by trivial, ?_⟩
  · show (putRangeKVs q).length = q.toNat
    unfold putRangeKVs intLoopRange
    rw [List.length_map, List.length_map, List.length_range]
    omega
  · intro h
    omega

/-- Witness for the amended C8 at concrete arguments. -/
theorem putRange_writes_witness :
    (putRangeRun 5 0 ["3"]).ops =
      [StubOp.putStateBatch (putRangeRun 5 0 ["3"]).kvGen] ∧
    (putRangeRun 5 0 ["3"]).kvGen =
      (intLoopRange 0 3).map (fun i => ⟨"", objKey i, rangeValJson i⟩) ∧
    (putRangeRun 5 0 ["3"]).kvGen.length = (3 : Int).toNat ∧
    (putRangeRun 5 0 ["3"]).resp = .ok (putRangeMsg (3 + 1) 5) ∧
    (0 ≤ (3 : Int) → (3 : Int) + 1 = ((3 : Int).toNat : Int) + 1) :=
  putRange_writes 5 0 ["3"] 3 (by decide)

/-! ### Lexicographic order on zero-padded decimal keys -/

theorem pad5digs_eq (n : Nat) (h : n ≤ 99999) :
    List.replicate (5 - ((decDigits n).map digitChar).length) 0 ++ decDigits n =
      [n / 10000, n / 1000 % 10, n / 100 % 10, n / 10 % 10, n % 10] := by
  by_cases h1 : n < 10
  · rw [decDigits_lt10 n h1]
    show [0, 0, 0, 0, n] = _
    have e1 : n / 10000 = 0 := by omega
    have e2 : n / 1000 % 10 = 0 := by omega
    have e3 : n / 100 % 10 = 0 := by omega
    have e4 : n / 10 % 10 = 0 := by omega
    have e5 : n % 10 = n := by omega
    rw [e1, e2, e3, e4, e5]
  by_cases h2 : n < 100
  · rw [decDigits_ge10 n (by omega), decDigits_lt10 (n / 10) (by omega)]
    show [0, 0, 0, n / 10, n % 10] = _
    have e1 : n / 10000 = 0 := by omega
    have e2 : n / 1000 % 10 = 0 := by omega
    have e3 : n / 100 % 10 = 0 := by omega
    have e4 : n / 10 % 10 = n / 10 := by omega
    rw [e1, e2, e3, e4]
  by_cases h3 : n < 1000
  · rw [decDigits_ge10 n (by omega), decDigits_ge10 (n / 10) (by omega),
      decDigits_lt10 (n / 10 / 10) (by omega)]
    show [0, 0, n / 10 / 10, n / 10 % 10, n % 10] = _
    have e1 : n / 10000 = 0 := by omega
    have e2 : n / 1000 % 10 = 0 := by omega
    have e3 : n / 10 / 10 = n / 100 % 10 := by omega
    rw [e1, e2, e3]
  by_cases h4 : n < 10000
  · rw [decDigits_ge10 n (by omega), decDigits_ge10 (n / 10) (by omega),
      decDigits_ge10 (n / 10 / 10) (by omega),
      decDigits_lt10 (n / 10 / 10 / 10) (by omega)]
    show [0, n / 10 / 10 / 10, n / 10 / 10 % 10, n / 10 % 10, n % 10] = _
    have e1 : n / 10000 = 0 := by omega
    have e2 : n / 10 / 10 / 10 = n / 1000 % 10 := by omega
    have e3 : n / 10 / 10 % 10 = n / 100 % 10 := by omega
    rw [e1, e2, e3]
  · rw [decDigits_ge10 n (by omega), decDigits_ge10 (n / 10) (by omega),
      decDigits_ge10 (n / 10 / 10) (by omega),
      decDigits_ge10 (n / 10 / 10 / 10) (by omega),
      decDigits_lt10 (n / 10 / 10 / 10 / 10) (by omega)]
    show [n / 10 / 10 / 10 / 10, n / 10 / 10 / 10 % 10, n / 10 / 10 % 10,
      n / 10 % 10, n % 10] = _
    have e1 : n / 10 / 10 / 10 / 10 = n / 10000 := by omega
    have e2 : n / 10 / 10 / 10 % 10 = n / 1000 % 10 := by omega
    have e3 : n / 10 / 10 % 10 = n / 100 % 10 := by omega
    rw [e1, e2, e3]

theorem pad5chars_eq (n : Nat) (h : n ≤ 99999) :
    leftPadChars '0' 5 ((decDigits n).map digitChar) =
      [digitChar (n / 10000), digitChar (n / 1000 % 10),
       digitChar (n / 100 % 10), digitChar (n / 10 % 10), digitChar (n % 10)] := by
  unfold leftPadChars
  calc List.replicate (5 - ((decDigits n).map digitChar).length) '0' ++
        (decDigits n).map digitChar
      = (List.replicate (5 - ((decDigits n).map digitChar).length) 0 ++
          decDigits n).map digitChar := by
        rw [List.map_append, List.map_replicate, digitChar_zero]
    _ = _ := by rw [pad5digs_eq n h]; rfl

theorem charListLt_append_same (p : List Char) : ∀ a b,
    charListLt (p ++ a) (p ++ b) = charListLt a b := by
  induction p with
  | nil => intro a b; rfl
  | cons c p ih =>
    intro a b
    show charListLt (c :: (p ++ a)) (c :: (p ++ b)) = _
    rw [show charListLt (c :: (p ++ a)) (c :: (p ++ b)) =
        (if c.toNat < c.toNat then true else if c.toNat < c.toNat then false
          else charListLt (p ++ a) (p ++ b)) from rfl]
    rw [if_neg (Nat.lt_irrefl c.toNat), if_neg (Nat.lt_irrefl c.toNat)]
    exact ih a b

theorem charListLt_digits5 (a b : Nat) (ha : a ≤ 99999) (hb : b ≤ 99999) :
    charListLt (leftPadChars '0' 5 ((decDigits a).map digitChar))
      (leftPadChars '0' 5 ((decDigits b).map digitChar)) = decide (a < b) := by
  rw [pad5chars_eq a ha, pad5chars_eq b hb]
  rw [Bool.eq_iff_iff, decide_eq_true_eq]
  simp only [charListLt]
  rw [digitChar_toNat (a / 10000) (by omega), digitChar_toNat (b / 10000) (by omega),
    digitChar_toNat (a / 1000 % 10) (by omega), digitChar_toNat (b / 1000 % 10) (by omega),
    digitChar_toNat (a / 100 % 10) (by omega), digitChar_toNat (b / 100 % 10) (by omega),
    digitChar_toNat (a / 10 % 10) (by omega), digitChar_toNat (b / 10 % 10) (by omega),
    digitChar_toNat (a % 10) (by omega), digitChar_toNat (b % 10) (by omega)]
  split_ifs <;> simp_all <;> omega

theorem fmt05_nonneg_data (i : Nat) :
    (fmt05 (Int.ofNat i)).data =
      leftPadChars '0' 5 ((decDigits i).map digitChar) := by
  unfold fmt05
  rw [if_neg (by simp only [Int.ofNat_eq_coe]; omega)]
  rfl

theorem objKey_lt (i n : Nat) (hi : i ≤ 99999) (hn : n ≤ 99999) :
    strLtB (objKey (Int.ofNat i)) (objKey (Int.ofNat n)) = decide (i < n) := by
  unfold strLtB objKey
  rw [String.data_append "OBJ" _, String.data_append "OBJ" _,
    charListLt_append_same, fmt05_nonneg_data, fmt05_nonneg_data]
  exact charListLt_digits5 i n hi hn

theorem objKey_ge_start (i : Nat) (hi : i ≤ 99999) :
    strLeB (objKey 0) (objKey (Int.ofNat i)) = true := by
  unfold strLeB
  rw [show (objKey (0 : Int)) = objKey (Int.ofNat 0) from rfl,
    objKey_lt i 0 hi (by omega)]
  rfl

/-- Range membership of the `OBJ%05d` keys below 100000 is numeric
comparison: `OBJ%05d(i)` lies in `[OBJ00000, OBJ%05d(n))` exactly when
`i < n`. -/
theorem rangeCovers_objKey (i n : Nat) (hi : i ≤ 99999) (hn : n ≤ 99999) :
    rangeCovers (objKey 0) (objKey (Int.ofNat n)) (objKey (Int.ofNat i)) =
      decide (i < n) := by
  unfold rangeCovers
  rw [objKey_ge_start i hi, objKey_lt i n hi hn]
  rfl

theorem range_filter_lt (n : Nat) : ∀ m, n ≤ m →
    (List.range m).filter (fun i => decide (i < n)) = List.range n := by
  intro m
  induction m with
  | zero =>
    intro h
    have h0 : n = 0 := by omega
    subst h0
    rfl
  | succ m ih =>
    intro h
    by_cases hnm : n ≤ m
    · rw [List.range_succ, List.filter_append, ih hnm]
      have hm : (List.filter (fun i => decide (i < n)) [m]) = [] := by
        simp only [List.filter]
        have : ¬ m < n := by omega
        simp [this]
      rw [hm, List.append_nil]
    · have hn : n = m + 1 := by omega
      subst hn
      apply List.filter_eq_self.mpr
      intro x hx
      rw [List.mem_range] at hx
      simp [hx]

theorem putRangeKVs_keys (k : Nat) :
    (putRangeKVs (Int.ofNat k)).map (fun kv => kv.key) =
      (List.range k).map (fun i => objKey (Int.ofNat i)) := by
  unfold putRangeKVs intLoopRange
  rw [List.map_map, List.map_map]
  rw [show ((Int.ofNat k) - 0).toNat = k from by
    simp only [Int.ofNat_eq_coe]; omega]
  apply List.map_congr_left
  intro i _
  show objKey (0 + Int.ofNat i) = objKey (Int.ofNat i)
  rw [show (0 : Int) + Int.ofNat i = Int.ofNat i from by
    simp only [Int.ofNat_eq_coe]; omega]

/-- The half-open range `[OBJ00000, OBJ%05d(n))` selects, among the keys
written by `putRange` with count `m ≤ 99999`, exactly the keys written by
`putRange` with count `n ≤ m`. -/
theorem getRange_coverage (n m : Nat) (hnm : n ≤ m) (hm : m ≤ 99999) :
    ((putRangeKVs (Int.ofNat m)).map (fun kv => kv.key)).filter
      (fun k => rangeCovers (objKey 0) (objKey (Int.ofNat n)) k) =
    (putRangeKVs (Int.ofNat n)).map (fun kv => kv.key) := by
  rw [putRangeKVs_keys m, putRangeKVs_keys n, List.filter_map]
  have hcong : (List.range m).filter
      ((fun k => rangeCovers (objKey 0) (objKey (Int.ofNat n)) k) ∘
        (fun i => objKey (Int.ofNat i))) =
      (List.range m).filter (fun i => decide (i < n)) := by
    apply List.filter_congr
    intro i hi
    rw [List.mem_range] at hi
    show rangeCovers (objKey 0) (objKey (Int.ofNat n)) (objKey (Int.ofNat i)) =
      decide (i < n)
    exact rangeCovers_objKey i n (by omega) (by omega)
  rw [hcong, range_filter_lt n m hnm]

/-- Dropping the `OBJ` marker from an `OBJ%05d` key leaves its `%05d`
rendering (`startkey[3:]`, `endkey[3:]` at lines 595-596). -/
theorem strFrom3_objKey (n : Int) : strFrom3 (objKey n) = fmt05 n := by
  unfold strFrom3 objKey
  rw [String.data_append "OBJ" (fmt05 n)]
  show String.mk (('O' :: 'B' :: 'J' :: []) ++ (fmt05 n).data |>.drop 3) = fmt05 n
  show String.mk ((fmt05 n).data) = fmt05 n
  rfl

/-- C6 counterexample: key `OBJ100000` (written by `putRange` with any
count above 100000, per the C8 analysis of `putRangeKVs`) falls inside
the byte-lexicographic half-open range `[OBJ00000, OBJ50000)` queried by
the non-batch path of `getRange` with count 50000, although
`100000 ∉ [0, 50000)`: a snapshot holding that key is returned by the
range query. -/
theorem getRange_targets_counterexample :
    (getRangeRun (fun _ _ => "") [(objKey 100000, "v")] 0 0
      ["50000", "nobatchapi"]).values = [⟨"", objKey 100000, "v"⟩] ∧
    rangeCovers (objKey 0) (objKey 50000) (objKey 100000) = true ∧
    ¬ (100000 < 50000) := by
  decide

/-- C6 (amended): for every invocation of `getRange` with parsed count
`q`, the batch path enumerates and requests via `GetStateBatch` exactly
the keys `OBJ%05d(i)` for `i` in `[0, q)`; and, provided the prior
`putRange` count `mm` satisfies `q ≤ mm ≤ 99999`, the half-open range
`[OBJ00000, OBJ%05d(q))` used by the non-batch path covers exactly those
same keys among the keys written by `putRange`. -/
theorem getRange_targets (lookup : String → String → String)
    (db : List (String × String)) (m s0 : Nat) (a : List String) (q : Int)
    (hq : parseCount a = some q) :
    (getRangeRun lookup db m s0 a).keyGen =
      (intLoopRange 0 q).map (fun i => ⟨"", objKey i⟩) ∧
    (find a "nobatchapi" = -1 →
      (getRangeRun lookup db m s0 a).ops =
        [StubOp.getStateBatch (getRangeRun lookup db m s0 a).keyGen]) ∧
    (0 ≤ q → ∀ mm : Nat, q.toNat ≤ mm → mm ≤ 99999 →
      ((putRangeKVs (Int.ofNat mm)).map (fun kv => kv.key)).filter
        (fun k => rangeCovers (objKey 0) (objKey q) k) =
      (putRangeKVs q).map (fun kv => kv.key)) := by
  have hlen : ¬ a.length < 1 := by
    intro hl; rw [parseCount, if_pos hl] at hq; cases hq
  have hat : atoi (a.getD 0 "") = some q := by
    rw [parseCount, if_neg hlen] at hq; exact hq
  have hstart : (atoi (strFrom3 (objKey 0))).getD 0 = 0 := by
    rw [strFrom3_objKey, atoi_fmt05]
    rfl
  have hend : (atoi (strFrom3 (objKey q))).getD 0 = q := by
    rw [strFrom3_objKey, atoi_fmt05]
    rfl
  refine ⟨?_, ?_, ?_⟩
  · unfold getRangeRun
    rw [if_neg hlen]
    simp only [hat]
    show (intLoopRange ((atoi (strFrom3 (objKey 0))).getD 0)
        ((atoi (strFrom3 (objKey q))).getD 0)).map
        (fun i => (⟨"", objKey i⟩ : StateKey)) = _
    rw [hstart, hend]
  · intro hnb
    have hub : decide (find a "nobatchapi" = -1) = true := by
      rw [hnb]
      rfl
    unfold getRangeRun
    rw [if_neg hlen]
    simp only [hat, hub]
    rfl
  · intro hq0 mm hmm1 hmm2
    have hqn : q = Int.ofNat q.toNat := by
      simp only [Int.ofNat_eq_coe]
      omega
    rw [hqn]
    exact getRange_coverage q.toNat mm hmm1 hmm2

/-- Witness for the amended C6 at concrete inputs. -/
theorem getRange_targets_witness :
    (getRangeRun (fun _ _ => "") [] 0 0 ["2"]).keyGen =
      (intLoopRange 0 2).map (fun i => ⟨"", objKey i⟩) ∧
    (getRangeRun (fun _ _ => "") [] 0 0 ["2"]).ops =
      [StubOp.getStateBatch (getRangeRun (fun _ _ => "") [] 0 0 ["2"]).keyGen] ∧
    ((putRangeKVs (Int.ofNat 5)).map (fun kv => kv.key)).filter
      (fun k => rangeCovers (objKey 0) (objKey 2) k) =
    (putRangeKVs 2).map (fun kv => kv.key) := by
  obtain ⟨h1, h2, h3⟩ := getRange_targets (fun _ _ => "") [] 0 0 ["2"] 2
    (by decide)
  exact ⟨h1, h2 (by decide), h3 (by decide) 5 (by decide) (by decide)⟩

end BatchCC

